import Mathlib

/-!
Shallow embedding of the motion/mission simulation engine of the
drone-detector-system backend (`backend/app`), covering:
`simulator/geo_utils.py`, `simulator/drone_simulator.py`,
`services/drone_service.py`, and the reset route of `api/routes/system.py`.

Python floats are modelled as real numbers, `datetime` instants as real
numbers (seconds), `Optional[float]` as `Option ℝ`, dictionaries keyed by
drone id as association lists with dict-style insert/erase, and Python
exceptions (`ZeroDivisionError`, `IndexError`, `TypeError`) as the error
side of `Except`.  Every call to `random.random()` / `random.uniform` /
`random.choice` / `random.randint` is modelled by an explicit draw
parameter: a `random.uniform(a, b)` result is written `a + (b - a) * u`
with `u` the underlying `random.random()` draw in `[0, 1)`, exactly as
CPython computes it.  The open `metadata` bag of a drone and the
uuid/timestamp identity fields of alerts are not modelled; no claim
concerns them.
-/

namespace DroneSim

open Real

/-! ### Enumerations (`app/core/models.py`) -/

inductive ThreatLevel where
  | none
  | low
  | medium
  | high
  | critical
deriving DecidableEq, Repr, BEq, Inhabited

/-- `list(ThreatLevel)` in source order. -/
def threatLevels : List ThreatLevel :=
  [ThreatLevel.none, ThreatLevel.low, ThreatLevel.medium, ThreatLevel.high, ThreatLevel.critical]

/-- `threat_levels.index(tl)` for the list above. -/
def ThreatLevel.index : ThreatLevel → Nat
  | .none => 0
  | .low => 1
  | .medium => 2
  | .high => 3
  | .critical => 4

/-- The one-step threat elevation used at spawn (`_create_random_drone`) and in the
restricted-zone tail of `_update_drone_mission`:
`if current_index < len(threat_levels) - 1: threat_level = threat_levels[current_index + 1]`. -/
def bumpThreat (tl : ThreatLevel) : ThreatLevel :=
  if tl.index < threatLevels.length - 1 then threatLevels.getD (tl.index + 1) tl else tl

inductive DroneType where
  | unknown
  | commercial
  | military
  | diy
deriving DecidableEq, Repr, BEq, Inhabited

/-- `DroneType.value` (the enum's string value). -/
def DroneType.value : DroneType → String
  | .unknown => "unknown"
  | .commercial => "commercial"
  | .military => "military"
  | .diy => "diy"

/-- `drone.type.value.capitalize()`. -/
def DroneType.valueCapitalized : DroneType → String
  | .unknown => "Unknown"
  | .commercial => "Commercial"
  | .military => "Military"
  | .diy => "Diy"

inductive AlertType where
  | border_violation
  | restricted_zone
  | signal_interference
  | unauthorized_flight
  | new_detection
deriving DecidableEq, Repr, BEq, Inhabited

/-- Python exceptions that the modelled code can raise. -/
inductive PyErr where
  | zeroDivisionError
  | indexError
  | typeError
deriving DecidableEq, Repr, Inhabited

/-! ### Geographic value types -/

/-- `GeoPoint` (`app/core/models.py`): latitude, longitude, optional altitude. -/
structure GeoPoint where
  latitude : ℝ
  longitude : ℝ
  altitude : Option ℝ := Option.none

/-- The border dict `{"center": {"latitude", "longitude"}, "width", "height", "rotation"}`. -/
structure Border where
  center_latitude : ℝ
  center_longitude : ℝ
  width : ℝ
  height : ℝ
  rotation : ℝ

/-- A hot-zone dict from `_create_hot_zones`; `restricted` defaults to `False`
(`zone.get("restricted", False)`). -/
structure HotZone where
  center_latitude : ℝ
  center_longitude : ℝ
  radius : ℝ
  weight : ℝ
  restricted : Bool := false

/-! ### Pure geographic helpers (`app/simulator/geo_utils.py`) -/

/-- Earth radius in kilometers (`EARTH_RADIUS_KM = 6371.0`). -/
def EARTH_RADIUS_KM : ℝ := 6371.0

/-- `math.radians`. -/
noncomputable def radiansOf (d : ℝ) : ℝ := d * π / 180

/-- `math.degrees`. -/
noncomputable def degreesOf (r : ℝ) : ℝ := r * 180 / π

/-- Python's float `%` operator for a positive right operand:
`x % y = x - y * floor(x / y)`. -/
noncomputable def fmod (x y : ℝ) : ℝ := x - y * ⌊x / y⌋

/-- `math.atan2` with the C convention (`atan2(0, 0) = 0`). -/
noncomputable def atan2 (y x : ℝ) : ℝ :=
  if 0 < x then arctan (y / x)
  else if x < 0 then
    (if 0 ≤ y then arctan (y / x) + π else arctan (y / x) - π)
  else if 0 < y then π / 2
  else if y < 0 then -(π / 2)
  else 0

/-- `calculate_distance`: Haversine distance in kilometers. -/
noncomputable def calculate_distance (point1 point2 : GeoPoint) : ℝ :=
  let lat1 := radiansOf point1.latitude
  let lon1 := radiansOf point1.longitude
  let lat2 := radiansOf point2.latitude
  let lon2 := radiansOf point2.longitude
  let dlon := lon2 - lon1
  let dlat := lat2 - lat1
  let a := Real.sin (dlat / 2) ^ 2 + Real.cos lat1 * Real.cos lat2 * Real.sin (dlon / 2) ^ 2
  let c := 2 * atan2 (Real.sqrt a) (Real.sqrt (1 - a))
  EARTH_RADIUS_KM * c

/-- `calculate_bearing`: initial bearing from `point1` to `point2`, degrees in `[0, 360)`. -/
noncomputable def calculate_bearing (point1 point2 : GeoPoint) : ℝ :=
  let lat1 := radiansOf point1.latitude
  let lon1 := radiansOf point1.longitude
  let lat2 := radiansOf point2.latitude
  let lon2 := radiansOf point2.longitude
  let dlon := lon2 - lon1
  let y := Real.sin dlon * Real.cos lat2
  let x := Real.cos lat1 * Real.sin lat2 - Real.sin lat1 * Real.cos lat2 * Real.cos dlon
  fmod (degreesOf (atan2 y x) + 360) 360

/-- `is_point_in_border`: translate to border center, inverse-rotate, test the
axis-aligned rectangle (the rotation step is skipped when `rotation == 0`). -/
noncomputable def is_point_in_border (point : GeoPoint) (border : Border) : Prop :=
  let rotation_rad := radiansOf border.rotation
  let dx0 := point.longitude - border.center_longitude
  let dy0 := point.latitude - border.center_latitude
  let dx := if border.rotation = 0 then dx0
            else dx0 * Real.cos (-rotation_rad) - dy0 * Real.sin (-rotation_rad)
  let dy := if border.rotation = 0 then dy0
            else dx0 * Real.sin (-rotation_rad) + dy0 * Real.cos (-rotation_rad)
  (-(border.width / 2) ≤ dx ∧ dx ≤ border.width / 2 ∧
    -(border.height / 2) ≤ dy ∧ dy ≤ border.height / 2)

/-- The draws consumed by one call to `get_random_point_in_border`:
`r_distance` is the `random.random()` in the distance formula, `u_angle` the
draw behind `random.uniform(0, 2*pi)`, `u_altitude` the draw behind
`random.uniform(50, 500)`. -/
structure RandomPointDraws where
  r_distance : ℝ
  u_angle : ℝ
  u_altitude : ℝ

/-- `get_random_point_in_border`.  The division `1.0 / (1.0 - edge_bias)` is a Python
`ZeroDivisionError` when the clamped `edge_bias` equals 1, modelled as `Except.error`. -/
noncomputable def get_random_point_in_border (border : Border) (edge_bias : ℝ)
    (min_distance : ℝ) (max_distance : Option ℝ) (draws : RandomPointDraws) :
    Except PyErr GeoPoint :=
  let rotation_rad := radiansOf border.rotation
  let half_width := border.width / 2
  let half_height := border.height / 2
  let max_d0 := max_distance.getD 1.0
  let min_d := max 0.0 (min 1.0 min_distance)
  let max_d := max min_d (min 1.0 max_d0)
  let eb := max 0.0 (min 1.0 edge_bias)
  let angle := 0 + (2 * π - 0) * draws.u_angle
  let altitude := 50 + (500 - 50) * draws.u_altitude
  let finish : ℝ → GeoPoint := fun distance =>
    let dx0 := distance * half_width * Real.cos angle
    let dy0 := distance * half_height * Real.sin angle
    let dx := if border.rotation = 0 then dx0
              else dx0 * Real.cos rotation_rad - dy0 * Real.sin rotation_rad
    let dy := if border.rotation = 0 then dy0
              else dx0 * Real.sin rotation_rad + dy0 * Real.cos rotation_rad
    { latitude := border.center_latitude + dy,
      longitude := border.center_longitude + dx,
      altitude := some altitude }
  if 0 < eb then
    if (1 : ℝ) - eb = 0 then Except.error PyErr.zeroDivisionError
    else
      Except.ok (finish (min_d + (max_d - min_d) *
        (1 - (1 - draws.r_distance) ^ ((1 : ℝ) / (1 - eb)))))
  else
    Except.ok (finish (min_d + (max_d - min_d) * draws.r_distance))

/-- `calculate_new_position`: flat-earth dead reckoning (GeoPoint input path). -/
noncomputable def calculate_new_position (start : GeoPoint)
    (heading speed time_delta : ℝ) : GeoPoint :=
  let heading_rad := radiansOf (90 - heading)
  let distance_km := speed * time_delta / 1000
  let lat_rad := radiansOf start.latitude
  let lon_km_per_degree := 111.32 * Real.cos lat_rad
  let lat_offset := distance_km * Real.sin heading_rad / 111.32
  let lon_offset := distance_km * Real.cos heading_rad / lon_km_per_degree
  { latitude := start.latitude + lat_offset,
    longitude := start.longitude + lon_offset,
    altitude := start.altitude }

/-! ### Basic lemmas about the geographic helpers -/

theorem fmod_nonneg_of_pos (x y : ℝ) (hy : 0 < y) : 0 ≤ fmod x y := by
  unfold fmod
  have h := Int.floor_le (x / y)
  have h2 : y * (⌊x / y⌋ : ℝ) ≤ y * (x / y) := by
    exact mul_le_mul_of_nonneg_left h (le_of_lt hy)
  rw [mul_div_cancel₀ x (ne_of_gt hy)] at h2
  linarith

theorem fmod_lt_of_pos (x y : ℝ) (hy : 0 < y) : fmod x y < y := by
  unfold fmod
  have h := Int.lt_floor_add_one (x / y)
  have h2 : y * (x / y) < y * ((⌊x / y⌋ : ℝ) + 1) := by
    exact mul_lt_mul_of_pos_left h hy
  rw [mul_div_cancel₀ x (ne_of_gt hy)] at h2
  linarith [h2]

theorem atan2_zero_of_pos (x : ℝ) (hx : 0 < x) : atan2 0 x = 0 := by
  unfold atan2
  rw [if_pos hx]
  simp [Real.arctan_zero]

/-- The Haversine distance from a point to itself is zero. -/
theorem calculate_distance_self (p : GeoPoint) : calculate_distance p p = 0 := by
  unfold calculate_distance
  simp only [sub_self, zero_div, Real.sin_zero]
  have h1 : (0 : ℝ) ^ 2 +
      Real.cos (radiansOf p.latitude) * Real.cos (radiansOf p.latitude) * 0 ^ 2 = 0 := by
    ring
  rw [h1, Real.sqrt_zero, sub_zero, Real.sqrt_one, atan2_zero_of_pos 1 one_pos,
    mul_zero, mul_zero]

/-- The Haversine distance is symmetric in its two arguments. -/
theorem calculate_distance_comm (a b : GeoPoint) :
    calculate_distance a b = calculate_distance b a := by
  unfold calculate_distance
  have hsin : ∀ u v : ℝ, Real.sin ((u - v) / 2) ^ 2 = Real.sin ((v - u) / 2) ^ 2 := by
    intro u v
    rw [show (u - v) / 2 = -((v - u) / 2) by ring, Real.sin_neg, neg_sq]
  simp only
  rw [hsin (radiansOf b.latitude) (radiansOf a.latitude),
    hsin (radiansOf b.longitude) (radiansOf a.longitude),
    mul_comm (Real.cos (radiansOf a.latitude)) (Real.cos (radiansOf b.latitude))]

/-- Unfolding equation for `calculate_distance` (pure rewriting convenience). -/
theorem calculate_distance_def (p1 p2 : GeoPoint) :
    calculate_distance p1 p2 = EARTH_RADIUS_KM * (2 * atan2
      (Real.sqrt (Real.sin ((radiansOf p2.latitude - radiansOf p1.latitude) / 2) ^ 2 +
        Real.cos (radiansOf p1.latitude) * Real.cos (radiansOf p2.latitude) *
          Real.sin ((radiansOf p2.longitude - radiansOf p1.longitude) / 2) ^ 2))
      (Real.sqrt (1 - (Real.sin ((radiansOf p2.latitude - radiansOf p1.latitude) / 2) ^ 2 +
        Real.cos (radiansOf p1.latitude) * Real.cos (radiansOf p2.latitude) *
          Real.sin ((radiansOf p2.longitude - radiansOf p1.longitude) / 2) ^ 2)))) := rfl

theorem radiansOf_90 : radiansOf 90 = π / 2 := by
  unfold radiansOf; ring

/-- At the north pole the Haversine term degenerates: two points with latitude 90
are at distance zero regardless of longitude. -/
theorem calculate_distance_pole (lon1 lon2 : ℝ) (alt1 alt2 : Option ℝ) :
    calculate_distance ⟨90, lon1, alt1⟩ ⟨90, lon2, alt2⟩ = 0 := by
  rw [calculate_distance_def]
  simp only [sub_self, zero_div, Real.sin_zero, radiansOf_90, Real.cos_pi_div_two]
  have h1 : (0 : ℝ) ^ 2 + 0 * 0 *
      Real.sin ((radiansOf lon2 - radiansOf lon1) / 2) ^ 2 = 0 := by ring
  rw [h1, Real.sqrt_zero, sub_zero, Real.sqrt_one, atan2_zero_of_pos 1 one_pos,
    mul_zero, mul_zero]

theorem atan2_sqrt_eq_zero {a : ℝ} (ha : 0 ≤ a)
    (h : atan2 (Real.sqrt a) (Real.sqrt (1 - a)) = 0) : a = 0 := by
  by_cases h1 : 0 < Real.sqrt (1 - a)
  · unfold atan2 at h
    rw [if_pos h1] at h
    have h2 := Real.arctan_eq_zero_iff.mp h
    rcases div_eq_zero_iff.mp h2 with h3 | h3
    · exact (Real.sqrt_eq_zero ha).mp h3
    · exact absurd h3 (ne_of_gt h1)
  · have hx0 : Real.sqrt (1 - a) = 0 :=
      le_antisymm (not_lt.mp h1) (Real.sqrt_nonneg _)
    have ha1 : 1 ≤ a := by
      by_contra hlt
      push_neg at hlt
      exact h1 (Real.sqrt_pos.mpr (by linarith))
    have hy : 0 < Real.sqrt a := Real.sqrt_pos.mpr (by linarith)
    unfold atan2 at h
    rw [hx0, if_neg (lt_irrefl 0), if_neg (lt_irrefl 0), if_pos hy] at h
    exact absurd h (ne_of_gt (by positivity))

theorem radiansOf_lt {x y : ℝ} (h : x < y) : radiansOf x < radiansOf y := by
  unfold radiansOf
  have := Real.pi_pos
  nlinarith

theorem radiansOf_inj {x y : ℝ} (h : radiansOf x = radiansOf y) : x = y := by
  unfold radiansOf at h
  have hpi := Real.pi_ne_zero
  field_simp at h
  rcases h with h | h
  · exact h
  · exact absurd h hpi

/-- If both latitudes are strictly inside `(-90, 90)` and the longitudes differ by
strictly less than a full turn, a zero Haversine distance forces equal coordinates. -/
theorem calculate_distance_eq_zero_imp (a b : GeoPoint)
    (h1 : -90 < a.latitude) (h2 : a.latitude < 90)
    (h3 : -90 < b.latitude) (h4 : b.latitude < 90)
    (h5 : |a.longitude - b.longitude| < 360)
    (h : calculate_distance a b = 0) :
    a.latitude = b.latitude ∧ a.longitude = b.longitude := by
  have hpi := Real.pi_pos
  have hr90 : radiansOf 90 = π / 2 := radiansOf_90
  have hrm90 : radiansOf (-90) = -(π / 2) := by unfold radiansOf; ring
  have hb1 : -(π / 2) < radiansOf a.latitude := by rw [← hrm90]; exact radiansOf_lt h1
  have hb2 : radiansOf a.latitude < π / 2 := by rw [← hr90]; exact radiansOf_lt h2
  have hb3 : -(π / 2) < radiansOf b.latitude := by rw [← hrm90]; exact radiansOf_lt h3
  have hb4 : radiansOf b.latitude < π / 2 := by rw [← hr90]; exact radiansOf_lt h4
  have hc1 : 0 < Real.cos (radiansOf a.latitude) :=
    Real.cos_pos_of_mem_Ioo ⟨hb1, hb2⟩
  have hc2 : 0 < Real.cos (radiansOf b.latitude) :=
    Real.cos_pos_of_mem_Ioo ⟨hb3, hb4⟩
  set A := Real.sin ((radiansOf b.latitude - radiansOf a.latitude) / 2) ^ 2 +
    Real.cos (radiansOf a.latitude) * Real.cos (radiansOf b.latitude) *
      Real.sin ((radiansOf b.longitude - radiansOf a.longitude) / 2) ^ 2 with hA
  have hA0 : 0 ≤ A := by positivity
  rw [calculate_distance_def] at h
  rw [← hA] at h
  have hatan : atan2 (Real.sqrt A) (Real.sqrt (1 - A)) = 0 := by
    have hE : EARTH_RADIUS_KM ≠ 0 := by unfold EARTH_RADIUS_KM; norm_num
    rcases mul_eq_zero.mp h with hE' | h'
    · exact absurd hE' hE
    · rcases mul_eq_zero.mp h' with h2' | h3'
      · norm_num at h2'
      · exact h3'
  have hAzero : A = 0 := atan2_sqrt_eq_zero hA0 hatan
  rw [hA] at hAzero
  have hterm1 : 0 ≤ Real.sin ((radiansOf b.latitude - radiansOf a.latitude) / 2) ^ 2 :=
    sq_nonneg _
  have hterm2 : 0 ≤ Real.cos (radiansOf a.latitude) * Real.cos (radiansOf b.latitude) *
      Real.sin ((radiansOf b.longitude - radiansOf a.longitude) / 2) ^ 2 := by positivity
  obtain ⟨t1, t2'⟩ := (add_eq_zero_iff_of_nonneg hterm1 hterm2).mp hAzero
  have t2 : Real.sin ((radiansOf b.longitude - radiansOf a.longitude) / 2) ^ 2 = 0 := by
    rcases mul_eq_zero.mp t2' with hcc | hs
    · exact absurd hcc (ne_of_gt (mul_pos hc1 hc2))
    · exact hs
  have s1 : Real.sin ((radiansOf b.latitude - radiansOf a.latitude) / 2) = 0 :=
    pow_eq_zero_iff (two_ne_zero) |>.mp t1
  have s2 : Real.sin ((radiansOf b.longitude - radiansOf a.longitude) / 2) = 0 :=
    pow_eq_zero_iff (two_ne_zero) |>.mp t2
  constructor
  · have hz : (radiansOf b.latitude - radiansOf a.latitude) / 2 = 0 := by
      have hlo : -π < (radiansOf b.latitude - radiansOf a.latitude) / 2 := by linarith
      have hhi : (radiansOf b.latitude - radiansOf a.latitude) / 2 < π := by linarith
      exact (Real.sin_eq_zero_iff_of_lt_of_lt hlo hhi).mp s1
    have : radiansOf a.latitude = radiansOf b.latitude := by linarith
    exact (radiansOf_inj this).symm ▸ rfl
  · have habs := abs_lt.mp h5
    have hd1 : radiansOf a.longitude - radiansOf b.longitude < radiansOf 360 := by
      have : a.longitude - b.longitude < 360 := habs.2
      calc radiansOf a.longitude - radiansOf b.longitude
          = radiansOf (a.longitude - b.longitude) := by unfold radiansOf; ring
        _ < radiansOf 360 := radiansOf_lt this
    have hd2 : radiansOf (-360) < radiansOf a.longitude - radiansOf b.longitude := by
      have : -360 < a.longitude - b.longitude := habs.1
      calc radiansOf (-360)
          < radiansOf (a.longitude - b.longitude) := radiansOf_lt this
        _ = radiansOf a.longitude - radiansOf b.longitude := by unfold radiansOf; ring
    have hr360 : radiansOf 360 = 2 * π := by unfold radiansOf; ring
    have hrm360 : radiansOf (-360) = -(2 * π) := by unfold radiansOf; ring
    have hz : (radiansOf b.longitude - radiansOf a.longitude) / 2 = 0 := by
      have hlo : -π < (radiansOf b.longitude - radiansOf a.longitude) / 2 := by
        rw [hr360] at hd1; linarith
      have hhi : (radiansOf b.longitude - radiansOf a.longitude) / 2 < π := by
        rw [hrm360] at hd2; linarith
      exact (Real.sin_eq_zero_iff_of_lt_of_lt hlo hhi).mp s2
    have : radiansOf a.longitude = radiansOf b.longitude := by linarith
    exact radiansOf_inj this

/-! ### Core records (`app/core/models.py`) -/

/-- `Drone` (pydantic model).  `timestamp` is an instant in seconds; the open
`metadata` bag is not modelled. -/
structure Drone where
  id : String
  timestamp : ℝ
  location : GeoPoint
  type : DroneType := DroneType.unknown
  signal_strength : ℝ
  speed : Option ℝ := Option.none
  heading : Option ℝ := Option.none
  threat_level : ThreatLevel := ThreatLevel.none
  estimated_size : Option ℝ := Option.none
  confidence : ℝ

/-- `Alert` (pydantic model); the uuid `id` and creation `timestamp` are not modelled. -/
structure Alert where
  drone_id : String
  alert_type : AlertType
  location : GeoPoint
  description : String
  threat_level : ThreatLevel
  is_acknowledged : Bool := false

/-- A mission dict from `_create_drone_mission`. -/
structure Mission where
  mission_type : String
  target_location : GeoPoint
  behavior : String
  speed : ℝ
  duration : ℝ
  start_time : ℝ
  waypoints : List GeoPoint := []
  current_waypoint_index : Nat := 0
  completed : Bool := false

/-! ### Python-dict association lists (drone registry, mission table) -/

/-- `k in d` for a Python dict modelled as an association list. -/
def dictContains {α : Type} (l : List (String × α)) (k : String) : Bool :=
  l.any (fun p => p.1 == k)

/-- `d[k] = v`: replaces the binding when the key exists, else appends it. -/
def dictInsert {α : Type} (l : List (String × α)) (k : String) (v : α) :
    List (String × α) :=
  if dictContains l k then l.map (fun p => if p.1 == k then (k, v) else p)
  else l ++ [(k, v)]

/-- `del d[k]` (no-op when the key is absent, which the source never does). -/
def dictErase {α : Type} (l : List (String × α)) (k : String) : List (String × α) :=
  l.filter (fun p => !(p.1 == k))

/-- `d.get(k)` / `d[k]` lookup. -/
def dictFind {α : Type} (l : List (String × α)) (k : String) : Option α :=
  (l.find? (fun p => p.1 == k)).map (fun p => p.2)

/-- `list(d.keys())`. -/
def dictKeys {α : Type} (l : List (String × α)) : List String :=
  l.map (fun p => p.1)

/-- `len(d)`. -/
def dictSize {α : Type} (l : List (String × α)) : Nat := l.length

theorem dictSize_insert {α : Type} (l : List (String × α)) (k : String) (v : α) :
    dictSize (dictInsert l k v) =
      if dictContains l k then dictSize l else dictSize l + 1 := by
  unfold dictInsert dictSize
  split
  · simp
  · simp

theorem dictKeys_insert_of_contains {α : Type} (l : List (String × α)) (k : String)
    (v : α) (h : dictContains l k) : dictKeys (dictInsert l k v) = dictKeys l := by
  unfold dictInsert
  rw [if_pos h]
  unfold dictKeys
  rw [List.map_map]
  apply List.map_congr_left
  intro p _
  by_cases hk : p.1 == k
  · simp only [Function.comp_apply, if_pos hk]
    exact (eq_of_beq hk).symm
  · simp only [Function.comp_apply, if_neg hk]

theorem dictSize_erase_of_contains {α : Type} (l : List (String × α)) (k : String)
    (hnd : (dictKeys l).Nodup) (h : dictContains l k) :
    dictSize (dictErase l k) = dictSize l - 1 := by
  induction l with
  | nil => simp [dictContains] at h
  | cons p rest ih =>
      have hnd' := List.nodup_cons.mp hnd
      by_cases hk : p.1 == k
      · have hkeq : p.1 = k := eq_of_beq hk
        have hnotin : ∀ q ∈ rest, ¬(q.1 == k) := by
          intro q hq hqk
          apply hnd'.1
          have : (fun r : String × α => r.1) p = (fun r : String × α => r.1) q := by
            simp only
            rw [hkeq, ← eq_of_beq hqk]
          rw [this]
          exact List.mem_map_of_mem (fun r => r.1) hq
        unfold dictErase dictSize
        rw [List.filter_cons_of_neg (by simp [hk])]
        rw [List.filter_eq_self.mpr (by intro q hq; simp [hnotin q hq])]
        simp
      · have hrest : dictContains rest k := by
          unfold dictContains at h ⊢
          simp only [List.any_cons, hk, Bool.false_or] at h
          exact h
        have hlen : 1 ≤ rest.length := by
          cases rest with
          | nil => simp [dictContains] at hrest
          | cons q t => simp
        have ihv := ih hnd'.2 hrest
        unfold dictErase dictSize at ihv ⊢
        rw [List.filter_cons_of_pos (by simp [hk])]
        simp only [List.length_cons]
        omega

theorem dictSize_erase_le {α : Type} (l : List (String × α)) (k : String) :
    dictSize (dictErase l k) ≤ dictSize l :=
  List.length_filter_le _ l

theorem dictKeys_map_values {α : Type} (l : List (String × α))
    (f : String × α → α) :
    dictKeys (l.map (fun p => (p.1, f p))) = dictKeys l := by
  unfold dictKeys
  rw [List.map_map]
  rfl

/-! ### Restricted-zone test and per-drone alert checks (`drone_simulator.py`) -/

/-- `_is_in_restricted_zone`: true when some `restricted` hot zone contains the point
(distance in degrees, `distance_km / 111.0`, below the zone radius), falling back to
the legacy circle of radius `min(width, height) / 6` around the border center. -/
def is_in_restricted_zone (hot_zones : List HotZone) (border : Border)
    (location : GeoPoint) : Prop :=
  (∃ zone ∈ hot_zones, zone.restricted = true ∧
    calculate_distance
      { latitude := zone.center_latitude, longitude := zone.center_longitude }
      location / 111.0 < zone.radius) ∨
  calculate_distance
      { latitude := border.center_latitude, longitude := border.center_longitude }
      location / 111.0 < min border.width border.height / 6

open Classical in
/-- `_check_for_alerts`: the three checks run sequentially and the function returns at
the first match (restricted zone, then western border edge, then high threat). -/
noncomputable def check_for_alerts (border : Border) (hot_zones : List HotZone)
    (drone : Drone) : Option Alert :=
  if is_in_restricted_zone hot_zones border drone.location then
    some { drone_id := drone.id, alert_type := AlertType.restricted_zone,
           location := drone.location,
           description := drone.type.valueCapitalized ++ " drone detected in restricted zone",
           threat_level := drone.threat_level }
  else if drone.location.longitude < border.center_longitude - border.width / 2 then
    some { drone_id := drone.id, alert_type := AlertType.border_violation,
           location := drone.location,
           description := "Border crossing by " ++ drone.type.value ++ " drone",
           threat_level := ThreatLevel.high }
  else if drone.threat_level = ThreatLevel.high ∨ drone.threat_level = ThreatLevel.critical then
    some { drone_id := drone.id, alert_type := AlertType.unauthorized_flight,
           location := drone.location,
           description := "High-threat " ++ drone.type.value ++ " drone detected",
           threat_level := drone.threat_level }
  else Option.none

/-! ### Threat analyzer (`app/services/drone_service.py`, `analyze_drone_data`) -/

open Classical in
/-- The threat level computed by `DroneService.analyze_drone_data` before the
alert/update decision.  The speed and altitude guards reflect Python truthiness
(`if drone.speed and ...`, `if drone.location.altitude:`): a missing or zero value
skips the check. -/
noncomputable def analyze_threat_level (drone : Drone) : ThreatLevel :=
  let tl0 := drone.threat_level
  let tl1 := if drone.signal_strength < 20 ∨ 95 < drone.signal_strength then
      (if tl0 = ThreatLevel.none ∨ tl0 = ThreatLevel.low then ThreatLevel.medium else tl0)
    else tl0
  let tl2 := if ∃ s, drone.speed = some s ∧ s ≠ 0 ∧ 30 < s then
      (if tl1 = ThreatLevel.none ∨ tl1 = ThreatLevel.low ∨ tl1 = ThreatLevel.medium then
        ThreatLevel.high else tl1)
    else tl1
  let tl3 := if ∃ alt, drone.location.altitude = some alt ∧ alt ≠ 0 ∧ (alt < 10 ∨ 1000 < alt) then
      (if tl2 = ThreatLevel.none ∨ tl2 = ThreatLevel.low then ThreatLevel.medium else tl2)
    else tl2
  tl3

open Classical in
/-- `DroneService.analyze_drone_data`: returns the (possibly threat-updated) drone and
an `unauthorized_flight` alert exactly when the level changed to high or critical. -/
noncomputable def analyze_drone_data (drone : Drone) : Drone × Option Alert :=
  let threat_level := analyze_threat_level drone
  if threat_level ≠ drone.threat_level then
    ({ drone with threat_level := threat_level },
      if threat_level = ThreatLevel.high ∨ threat_level = ThreatLevel.critical then
        some { drone_id := drone.id, alert_type := AlertType.unauthorized_flight,
               location := drone.location,
               description := "Suspicious behavior detected for " ++ drone.type.value ++ " drone",
               threat_level := threat_level }
      else Option.none)
  else (drone, Option.none)

theorem analyze_threat_level_mono (d : Drone) :
    d.threat_level.index ≤ (analyze_threat_level d).index := by
  unfold analyze_threat_level
  by_cases c1 : d.signal_strength < 20 ∨ 95 < d.signal_strength <;>
    by_cases c2 : ∃ s, d.speed = some s ∧ s ≠ 0 ∧ 30 < s <;>
      by_cases c3 : ∃ alt, d.location.altitude = some alt ∧ alt ≠ 0 ∧ (alt < 10 ∨ 1000 < alt) <;>
        simp only [c1, c2, c3, if_true, if_false, if_pos, if_neg, not_true, not_false_iff] <;>
          cases d.threat_level <;> simp [ThreatLevel.index]

theorem analyze_threat_level_idem (d : Drone) :
    analyze_threat_level { d with threat_level := analyze_threat_level d } =
      analyze_threat_level d := by
  unfold analyze_threat_level
  by_cases c1 : d.signal_strength < 20 ∨ 95 < d.signal_strength <;>
    by_cases c2 : ∃ s, d.speed = some s ∧ s ≠ 0 ∧ 30 < s <;>
      by_cases c3 : ∃ alt, d.location.altitude = some alt ∧ alt ≠ 0 ∧ (alt < 10 ∨ 1000 < alt) <;>
        simp only [c1, c2, c3, if_true, if_false, if_pos, if_neg, not_true, not_false_iff] <;>
          cases d.threat_level <;> simp

/-! ### Mission generator and drone factory (`drone_simulator.py`) -/

/-- `_calculate_heading_to_target` (a verbatim duplicate of `calculate_bearing`). -/
noncomputable def calculate_heading_to_target (current_location target_location : GeoPoint) : ℝ :=
  let lat1 := radiansOf current_location.latitude
  let lon1 := radiansOf current_location.longitude
  let lat2 := radiansOf target_location.latitude
  let lon2 := radiansOf target_location.longitude
  let dlon := lon2 - lon1
  let y := Real.sin dlon * Real.cos lat2
  let x := Real.cos lat1 * Real.sin lat2 - Real.sin lat1 * Real.cos lat2 * Real.cos dlon
  fmod (degreesOf (atan2 y x) + 360) 360

/-- Draws consumed by `_generate_random_location`: the hot-zone-branch coin, the
weighted zone choice, the in-disk angle/radius/altitude draws, and the fallback
`get_random_point_in_border` draws. -/
structure LocationDraws where
  r_hot : ℝ
  zone : HotZone
  u_angle : ℝ
  r_radius : ℝ
  u_altitude : ℝ
  point_draws : RandomPointDraws

open Classical in
/-- `_generate_random_location`. -/
noncomputable def generate_random_location (hot_zones : List HotZone) (border : Border)
    (prefer_hot_zones : Bool) (draws : LocationDraws) : Except PyErr GeoPoint :=
  if prefer_hot_zones = true ∧ hot_zones ≠ [] ∧ draws.r_hot < 0.7 then
    let angle := 0 + (2 * π - 0) * draws.u_angle
    let distance := draws.zone.radius * Real.sqrt draws.r_radius
    Except.ok
      { latitude := draws.zone.center_latitude + distance * Real.sin angle,
        longitude := draws.zone.center_longitude + distance * Real.cos angle,
        altitude := some (50 + (500 - 50) * draws.u_altitude) }
  else
    get_random_point_in_border border 0.4 0.0 (some 0.95) draws.point_draws

/-- Draws consumed by `_create_drone_mission`. -/
structure MissionDraws where
  r_infiltration : ℝ
  restricted_choice : HotZone
  r_hotzone : ℝ
  zone_choice : HotZone
  r_patrol : ℝ
  u_alt : ℝ
  loc : LocationDraws
  u_speed : ℝ
  behavior_choice : String
  duration_n : ℕ

open Classical in
/-- `_create_drone_mission`: target choice (30% restricted-zone infiltration, then
50% hot-zone patrol/reconnaissance, else a plain random point), plus type-dependent
speed/behavior/duration. -/
noncomputable def create_drone_mission (hot_zones : List HotZone) (border : Border)
    (drone_type : DroneType) (now : ℝ) (draws : MissionDraws) : Except PyErr Mission := do
  let restricted_zones := hot_zones.filter (fun z => z.restricted)
  let target_altitude := 50 + (500 - 50) * draws.u_alt
  let target : GeoPoint × String ←
    if draws.r_infiltration < 0.3 then
      if restricted_zones ≠ [] then
        Except.ok (GeoPoint.mk draws.restricted_choice.center_latitude
          draws.restricted_choice.center_longitude (some target_altitude), "infiltration")
      else
        Except.ok (GeoPoint.mk border.center_latitude border.center_longitude
          (some target_altitude), "reconnaissance")
    else if draws.r_hotzone < 0.5 then
      Except.ok (GeoPoint.mk draws.zone_choice.center_latitude
        draws.zone_choice.center_longitude (some target_altitude),
        if draws.r_patrol < 0.7 then "patrol" else "reconnaissance")
    else do
      let p ← generate_random_location hot_zones border false draws.loc
      Except.ok (p, "patrol")
  let speed : ℝ := match drone_type with
    | .military => 10 + (40 - 10) * draws.u_speed
    | .commercial => 5 + (15 - 5) * draws.u_speed
    | .diy => 3 + (20 - 3) * draws.u_speed
    | .unknown => 5 + (25 - 5) * draws.u_speed
  Except.ok { mission_type := target.2, target_location := target.1,
              behavior := draws.behavior_choice, speed := speed,
              duration := (draws.duration_n : ℝ), start_time := now,
              waypoints := [], current_waypoint_index := 0, completed := false }

/-- The type-initial used for generated ids (`drone_type.value[0].upper()`). -/
def DroneType.initial : DroneType → String
  | .unknown => "U"
  | .commercial => "C"
  | .military => "M"
  | .diy => "D"

/-- Draws consumed by `_create_random_drone`. -/
structure DroneDraws where
  dtype : DroneType
  loc : LocationDraws
  u_signal : ℝ
  u_speed : ℝ
  baseline : ThreatLevel
  u_conf : ℝ
  u_size : ℝ
  u_heading : ℝ
  num_id : ℕ

open Classical in
/-- `_create_random_drone`: type-dependent field ranges, a one-step threat elevation
when the sampled location is in the restricted zone, heading toward the mission
target (and the mission speed) when a mission is supplied, and a generated
`{TypeInitial}{1000..9999}` id when none is given. -/
noncomputable def create_random_drone (hot_zones : List HotZone) (border : Border)
    (now : ℝ) (drone_id : Option String) (mission : Option Mission)
    (draws : DroneDraws) : Except PyErr Drone := do
  let drone_type := draws.dtype
  let location ← generate_random_location hot_zones border true draws.loc
  let signal_strength : ℝ := match drone_type with
    | .military => 30 + (70 - 30) * draws.u_signal
    | .commercial => 60 + (90 - 60) * draws.u_signal
    | .diy => 50 + (85 - 50) * draws.u_signal
    | .unknown => 20 + (60 - 20) * draws.u_signal
  let speed0 : ℝ := match drone_type with
    | .military => 10 + (40 - 10) * draws.u_speed
    | .commercial => 5 + (15 - 5) * draws.u_speed
    | .diy => 3 + (20 - 3) * draws.u_speed
    | .unknown => 5 + (25 - 5) * draws.u_speed
  let confidence : ℝ := match drone_type with
    | .military => 0.5 + (0.8 - 0.5) * draws.u_conf
    | .commercial => 0.7 + (0.95 - 0.7) * draws.u_conf
    | .diy => 0.6 + (0.9 - 0.6) * draws.u_conf
    | .unknown => 0.3 + (0.7 - 0.3) * draws.u_conf
  let size : ℝ := match drone_type with
    | .military => 2 + (5 - 2) * draws.u_size
    | .commercial => 0.3 + (1.5 - 0.3) * draws.u_size
    | .diy => 0.2 + (1.0 - 0.2) * draws.u_size
    | .unknown => 0.5 + (3 - 0.5) * draws.u_size
  let threat_level := if is_in_restricted_zone hot_zones border location then
      bumpThreat draws.baseline
    else draws.baseline
  let hs : ℝ × ℝ := match mission with
    | some m => (calculate_heading_to_target location m.target_location, m.speed)
    | Option.none => (0 + (360 - 0) * draws.u_heading, speed0)
  let id := match drone_id with
    | some s => s
    | Option.none => drone_type.initial ++ toString draws.num_id
  Except.ok { id := id, timestamp := now, location := location, type := drone_type,
              signal_strength := signal_strength, speed := some hs.2, heading := some hs.1,
              threat_level := threat_level, estimated_size := some size,
              confidence := confidence }

/-! ### Mission-driven movement (`_update_drone_mission`) -/

open Classical in
/-- The lazy 3×3 boustrophedon waypoint lattice of the `grid` behavior (the
per-waypoint `random.uniform(50, 300)` altitude draws are collapsed into the single
draw `u_wp_alt`; no claim depends on waypoint altitudes). -/
noncomputable def build_grid_waypoints (center : GeoPoint) (u_wp_alt : ℝ) : List GeoPoint :=
  let grid_size : ℝ := 0.02
  let rows : ℕ := 3
  let cols : ℕ := 3
  (List.range rows).flatMap (fun row =>
    (if row % 2 == 0 then List.range cols else (List.range cols).reverse).map (fun col =>
      { latitude := center.latitude + ((row : ℝ) - ((rows / 2 : ℕ) : ℝ)) * grid_size,
        longitude := center.longitude + ((col : ℝ) - ((cols / 2 : ℕ) : ℝ)) * grid_size,
        altitude := some (match center.altitude with
          | some a => if a ≠ 0 then a else 50 + (300 - 50) * u_wp_alt
          | Option.none => 50 + (300 - 50) * u_wp_alt) }))

/-- Draws consumed by one `_update_drone_mission` call; each `u`-field is the
`random.random()` behind the corresponding `random.uniform` noise. -/
structure MissionUpdateDraws where
  u_heading_noise : ℝ
  u_lat_noise : ℝ
  u_lon_noise : ℝ
  u_alt_noise : ℝ
  u_speed_change : ℝ
  r_evasive_pull : ℝ
  r_big_heading : ℝ
  r_big_speed : ℝ
  r_grid_restart : ℝ
  u_wp_alt : ℝ
  r_threat : ℝ

open Classical in
/-- `_update_drone_mission`: completion check, behavior dispatch, and the common
restricted-zone threat-elevation tail.  Reading a `None` speed/heading where the
source would feed it into arithmetic is a `TypeError`; indexing the waypoint list
out of bounds is an `IndexError`. -/
noncomputable def update_drone_mission (border : Border) (hot_zones : List HotZone)
    (update_interval now : ℝ) (drone : Drone) (mission : Mission)
    (draws : MissionUpdateDraws) : Except PyErr (Drone × Mission × Bool) :=
  let mission_duration := now - mission.start_time
  if mission.duration < mission_duration then Except.ok (drone, mission, true)
  else
    let location := drone.location
    let finish : Drone → Mission → Except PyErr (Drone × Mission × Bool) := fun ud m =>
      let ud2 := if is_in_restricted_zone hot_zones border ud.location ∧
          draws.r_threat < 0.3 ∧ ud.threat_level.index < threatLevels.length - 1 then
          { ud with threat_level := threatLevels.getD (ud.threat_level.index + 1) ud.threat_level }
        else ud
      Except.ok (ud2, m, false)
    if mission.behavior = "direct" then
      let target := mission.target_location
      let heading := fmod (calculate_heading_to_target location target +
        (-5 + 10 * draws.u_heading_noise)) 360
      match drone.speed with
      | some spd =>
        let new_location := calculate_new_position location heading spd update_interval
        let distance_to_target := calculate_distance new_location target
        if distance_to_target < 0.05 then
          if mission.mission_type = "patrol" then
            finish { drone with location := new_location, timestamp := now,
                                heading := some heading } { mission with behavior := "circling" }
          else if mission.mission_type = "infiltration" then
            finish { drone with location := new_location, timestamp := now,
                                heading := some heading } { mission with behavior := "hovering" }
          else Except.ok (drone, mission, true)
        else
          finish { drone with location := new_location, timestamp := now,
                              heading := some heading } mission
      | Option.none => Except.error PyErr.typeError
    else if mission.behavior = "circling" then
      let target := mission.target_location
      let distance_to_target := calculate_distance location target
      let heading1 := if 0.03 < distance_to_target then
          calculate_heading_to_target location target
        else fmod (calculate_heading_to_target target location + 90) 360
      let heading := fmod (heading1 + (-3 + 6 * draws.u_heading_noise)) 360
      match drone.speed with
      | some spd =>
        let new_location := calculate_new_position location heading spd update_interval
        finish { drone with location := new_location, timestamp := now,
                            heading := some heading } mission
      | Option.none => Except.error PyErr.typeError
    else if mission.behavior = "hovering" then
      match drone.speed, drone.heading with
      | some spd, some hdg =>
        let current_altitude := location.altitude.getD 100
        let new_location : GeoPoint :=
          { latitude := location.latitude + (-0.0001 + 0.0002 * draws.u_lat_noise),
            longitude := location.longitude + (-0.0001 + 0.0002 * draws.u_lon_noise),
            altitude := some (current_altitude + (-5 + 10 * draws.u_alt_noise)) }
        let new_speed := max 0.5 (min 3.0 (spd * 0.5))
        let new_heading := fmod (hdg + (-30 + 60 * draws.u_heading_noise)) 360
        finish { drone with location := new_location, timestamp := now,
                            heading := some new_heading, speed := some new_speed } mission
      | _, _ => Except.error PyErr.typeError
    else if mission.behavior = "evasive" then
      match drone.speed, drone.heading with
      | some spd, some hdg =>
        let new_speed := max 5 (min 40 (spd + (-3 + 6 * draws.u_speed_change)))
        let new_heading1 := fmod (hdg + (-45 + 90 * draws.u_heading_noise)) 360
        let new_location1 := calculate_new_position location new_heading1 new_speed update_interval
        let hl2 : ℝ × GeoPoint :=
          if is_point_in_border new_location1 border then (new_heading1, new_location1)
          else
            let nh := fmod (new_heading1 + 180) 360
            (nh, calculate_new_position location nh new_speed update_interval)
        let target := mission.target_location
        let distance_to_target := calculate_distance hl2.2 target
        let hl3 : ℝ × GeoPoint :=
          if 0.1 < distance_to_target ∧ draws.r_evasive_pull < 0.3 then
            let target_heading := calculate_heading_to_target hl2.2 target
            let nh := fmod (0.7 * hl2.1 + 0.3 * target_heading) 360
            (nh, calculate_new_position location nh new_speed update_interval)
          else hl2
        finish { drone with location := hl3.2, timestamp := now,
                            heading := some hl3.1, speed := some new_speed } mission
      | _, _ => Except.error PyErr.typeError
    else if mission.behavior = "random" then
      match drone.speed, drone.heading with
      | some spd, some hdg =>
        let heading_change := if draws.r_big_heading < 0.2 then
            -90 + 180 * draws.u_heading_noise
          else -15 + 30 * draws.u_heading_noise
        let new_heading1 := fmod (hdg + heading_change) 360
        let speed_change := if draws.r_big_speed < 0.1 then
            -5 + 10 * draws.u_speed_change
          else -1 + 2 * draws.u_speed_change
        let new_speed := max 1 (min 25 (spd + speed_change))
        let new_location1 := calculate_new_position location new_heading1 new_speed update_interval
        let hl2 : ℝ × GeoPoint :=
          if is_point_in_border new_location1 border then (new_heading1, new_location1)
          else
            let nh := fmod (new_heading1 + 180) 360
            (nh, calculate_new_position location nh new_speed update_interval)
        finish { drone with location := hl2.2, timestamp := now,
                            heading := some hl2.1, speed := some new_speed } mission
      | _, _ => Except.error PyErr.typeError
    else if mission.behavior = "grid" then
      let mission1 := if mission.waypoints = [] then
          { mission with
              waypoints := build_grid_waypoints mission.target_location draws.u_wp_alt,
              current_waypoint_index := 0 }
        else mission
      let current_waypoint_index := mission1.current_waypoint_index
      let fly : Mission → Except PyErr (Drone × Mission × Bool) := fun m =>
        match m.waypoints[current_waypoint_index]? with
        | Option.none => Except.error PyErr.indexError
        | some target =>
          let heading := calculate_heading_to_target location target
          match drone.speed with
          | some spd =>
            let new_location := calculate_new_position location heading spd update_interval
            let distance_to_waypoint := calculate_distance new_location target
            let m2 := if distance_to_waypoint < 0.01 then
                { m with current_waypoint_index := m.current_waypoint_index + 1 }
              else m
            finish { drone with location := new_location, timestamp := now,
                                heading := some heading } m2
          | Option.none => Except.error PyErr.typeError
      if mission1.waypoints.length ≤ current_waypoint_index then
        if draws.r_grid_restart < 0.5 then
          fly { mission1 with current_waypoint_index := 0 }
        else Except.ok (drone, { mission1 with behavior := "hovering" }, false)
      else fly mission1
    else
      match drone.speed, drone.heading with
      | some spd, some hdg =>
        let new_location1 := calculate_new_position location hdg spd update_interval
        let hl2 : ℝ × GeoPoint :=
          if is_point_in_border new_location1 border then (hdg, new_location1)
          else
            let nh := fmod (hdg + 180) 360
            (nh, calculate_new_position location nh spd update_interval)
        finish { drone with location := hl2.2, timestamp := now,
                            heading := some hl2.1 } mission
      | _, _ => Except.error PyErr.typeError

/-! ### Per-drone position update (`_update_drone_position`) -/

/-- Draws consumed by one `_update_drone_position` call: the mission-update draws,
the 70% replacement-mission coin and its mission draws, the missionless jitter
draws, and the 5% new-mission coin with its mission draws. -/
structure PositionDraws where
  mu : MissionUpdateDraws
  r_new_mission : ℝ
  md : MissionDraws
  r_heading_change : ℝ
  u_heading_change : ℝ
  r_speed_change : ℝ
  u_speed_change : ℝ
  r_signal_change : ℝ
  u_signal_change : ℝ
  r_spawn_mission : ℝ
  md2 : MissionDraws

open Classical in
/-- `_update_drone_position`: mission-driven update (with mission completion and 70%
replacement) when the drone has a mission, else simple dead-reckoning with jitter,
boundary reflection, and a 5% chance of acquiring a mission.  Returns the updated
drone together with the updated mission table. -/
noncomputable def update_drone_position (border : Border) (hot_zones : List HotZone)
    (update_interval now : ℝ) (missions : List (String × Mission)) (drone : Drone)
    (draws : PositionDraws) : Except PyErr (Drone × List (String × Mission)) :=
  match dictFind missions drone.id with
  | some mission => do
      let res ← update_drone_mission border hot_zones update_interval now drone mission draws.mu
      let updated_drone := res.1
      let mission2 := res.2.1
      let mission_completed := res.2.2
      if mission_completed then
        let missions1 := dictErase missions drone.id
        if draws.r_new_mission < 0.7 then do
          let m ← create_drone_mission hot_zones border drone.type now draws.md
          Except.ok (updated_drone, dictInsert missions1 drone.id m)
        else Except.ok (updated_drone, missions1)
      else Except.ok (updated_drone, dictInsert missions drone.id mission2)
  | Option.none =>
      match drone.speed, drone.heading with
      | some spd, some hdg => do
        let location := drone.location
        let new_location1 := calculate_new_position location hdg spd update_interval
        let new_heading :=
          if is_point_in_border new_location1 border then
            fmod (hdg + (if draws.r_heading_change < 0.3 then
              -15 + 30 * draws.u_heading_change else 0)) 360
          else fmod (hdg + 180) 360
        let new_location := calculate_new_position location new_heading spd update_interval
        let new_speed := max 0 (spd + (if draws.r_speed_change < 0.3 then
          -1 + 2 * draws.u_speed_change else 0))
        let new_signal := max 0 (min 100 (drone.signal_strength +
          (if draws.r_signal_change < 0.2 then -5 + 10 * draws.u_signal_change else 0)))
        let updated_drone := { drone with
                                 location := new_location, timestamp := now,
                                 heading := some new_heading, speed := some new_speed,
                                 signal_strength := new_signal }
        if draws.r_spawn_mission < 0.05 then do
          let m ← create_drone_mission hot_zones border drone.type now draws.md2
          Except.ok (updated_drone, dictInsert missions drone.id m)
        else Except.ok (updated_drone, missions)
      | _, _ => Except.ok (drone, missions)

/-! ### Simulator state, tick loop and engine task (`run_simulation`, `system.py`) -/

/-- The mutable state of a `DroneSimulator` instance. -/
structure SimState where
  border : Border
  num_drones : ℕ
  update_interval : ℝ
  drones : List (String × Drone)
  alerts : List Alert
  hot_zones : List HotZone
  drone_missions : List (String × Mission)

/-- `reset_simulator` (`api/routes/system.py`): clears `drones` and `alerts` only. -/
def reset_simulator (st : SimState) : SimState :=
  { st with drones := [], alerts := [] }

/-- `apply_countermeasure_effects`, with the jamming/takeover modules abstracted as
the external effect port `port` (spec §6).  The whole loop is wrapped in one
`try/except` that logs and suppresses, so a failing entry stops the loop but keeps
the drones already processed. -/
def apply_cm_list (port : Drone → Except PyErr Drone) :
    List (String × Drone) → List (String × Drone)
  | [] => []
  | (k, d) :: rest =>
      match port d with
      | Except.ok d2 => (k, d2) :: apply_cm_list port rest
      | Except.error _ => (k, d) :: rest

open Classical in
/-- The spawn/retire block of the tick (`run_simulation`, 5% coin; spawn only while
`len(drones) < num_drones + 3`, retire only while `len(drones) > num_drones - 2`). -/
noncomputable def spawn_retire (st : SimState) (now : ℝ) (r1 r2 : ℝ) (dd : DroneDraws)
    (r_mission : ℝ) (md : MissionDraws) (retire_id : String) :
    Except PyErr SimState :=
  if r1 < 0.05 then
    if r2 < 0.7 ∧ (dictSize st.drones : ℤ) < (st.num_drones : ℤ) + 3 then do
      let new_drone ← create_random_drone st.hot_zones st.border now Option.none Option.none dd
      let drones2 := dictInsert st.drones new_drone.id new_drone
      let missions2 ←
        if r_mission < 0.5 then do
          let m ← create_drone_mission st.hot_zones st.border new_drone.type now md
          Except.ok (dictInsert st.drone_missions new_drone.id m)
        else Except.ok st.drone_missions
      let alert : Alert := { drone_id := new_drone.id, alert_type := AlertType.new_detection,
                             location := new_drone.location,
                             description := "New " ++ new_drone.type.value ++ " drone detected",
                             threat_level := new_drone.threat_level }
      Except.ok { st with drones := drones2, drone_missions := missions2,
                          alerts := st.alerts ++ [alert] }
    else if st.drones ≠ [] ∧ (st.num_drones : ℤ) - 2 < (dictSize st.drones : ℤ) then
      Except.ok { st with drones := dictErase st.drones retire_id,
                          drone_missions := dictErase st.drone_missions retire_id }
    else Except.ok st
  else Except.ok st

/-- The per-drone update loop at the top of each tick: iterate a snapshot of
`list(self.drones.items())`, update position, analyze, store the drone back, and
append the position alert then the analysis alert to the alert log.  Broadcasting
is fire-and-forget (`ConnectionManager.broadcast` swallows subscriber errors) and
is not part of the state. -/
noncomputable def update_loop (now : ℝ) (draws : String → PositionDraws) :
    List (String × Drone) → SimState → Except PyErr SimState
  | [], s => Except.ok s
  | p :: rest, s => do
      let res ← update_drone_position s.border s.hot_zones s.update_interval now
        s.drone_missions p.2 (draws p.1)
      let ad := analyze_drone_data res.1
      let position_alert := check_for_alerts s.border s.hot_zones ad.1
      update_loop now draws rest
        { s with drones := dictInsert s.drones p.1 ad.1,
                 drone_missions := res.2,
                 alerts := s.alerts ++ position_alert.toList ++ ad.2.toList }

noncomputable def tick_update_drones (now : ℝ) (draws : String → PositionDraws)
    (st : SimState) : Except PyErr SimState :=
  update_loop now draws st.drones st

/-- The inputs of one tick: the per-drone draws, the external countermeasure port,
the spawn/retire draws, the (possibly failing) countermeasure-status gather, and
whether a cancellation request arrives at this tick's sleep. -/
structure TickInput where
  now : ℝ
  draws : String → PositionDraws
  cm_port : Drone → Except PyErr Drone
  r_spawn1 : ℝ
  r_spawn2 : ℝ
  spawn_draws : DroneDraws
  r_mission : ℝ
  spawn_mission_draws : MissionDraws
  retire_id : String
  status_gather : Except PyErr Unit
  cancel_at_sleep : Bool

/-- One pass of the `while True` body of `run_simulation` (without the sleep):
per-drone updates, countermeasure effects (whole block `try/except`-suppressed),
spawn/retire, broadcasts, and the `try/except`-suppressed status broadcast. -/
noncomputable def tick_body (st : SimState) (inp : TickInput) : Except PyErr SimState := do
  let st1 ← tick_update_drones inp.now inp.draws st
  let st2 := { st1 with drones := apply_cm_list inp.cm_port st1.drones }
  let st3 ← spawn_retire st2 inp.now inp.r_spawn1 inp.r_spawn2 inp.spawn_draws
    inp.r_mission inp.spawn_mission_draws inp.retire_id
  let _ := inp.status_gather
  Except.ok st3

/-- How the engine task ends: explicit cancellation, or an error that escaped the
tick body (caught by the outer handler, logged, and re-raised). -/
inductive EngineExit where
  | cancelled
  | errored (e : PyErr)
deriving DecidableEq, Repr

/-- One iteration of the engine loop: run the tick body; an escaping exception is
logged and re-raised (terminating the task), otherwise the sleep observes a pending
cancellation, which is re-raised unmasked. -/
noncomputable def engine_step (st : SimState) (inp : TickInput) : Except EngineExit SimState :=
  match tick_body st inp with
  | Except.error e => Except.error (EngineExit.errored e)
  | Except.ok st2 => if inp.cancel_at_sleep then Except.error EngineExit.cancelled else Except.ok st2

/-- The engine loop over a list of tick inputs. -/
noncomputable def engine_run (st : SimState) : List TickInput → Except EngineExit SimState
  | [] => Except.ok st
  | inp :: rest =>
      match engine_step st inp with
      | Except.error e => Except.error e
      | Except.ok st2 => engine_run st2 rest

/-! ## Claim theorems -/

/-- C9 (counterexample): at the north pole the Haversine distance of two distinct
points is zero, so `distance(a,b) = 0` does not imply that `a` and `b` coincide,
even within latitude `[-90, 90]` and longitude `[-180, 180]`. -/
theorem c9_pole_counterexample :
    calculate_distance (GeoPoint.mk 90 0 Option.none) (GeoPoint.mk 90 90 Option.none) = 0 ∧
    GeoPoint.mk 90 0 Option.none ≠ GeoPoint.mk 90 90 Option.none := by
  refine ⟨calculate_distance_pole 0 90 Option.none Option.none, ?_⟩
  intro h
  have := congrArg GeoPoint.longitude h
  norm_num at this

/-- C9 (amended): `distance(p,p) = 0` and `distance(a,b) = distance(b,a)` hold for
all geographic points; `distance(a,b) = 0` forces equal latitude and longitude
provided both latitudes are strictly inside `(-90, 90)` and the longitudes differ by
strictly less than 360 degrees (at the poles, or across the antimeridian, distinct
points can be at distance zero; altitude is ignored by the distance entirely). -/
theorem c9_distance_properties :
    (∀ p : GeoPoint, calculate_distance p p = 0) ∧
    (∀ a b : GeoPoint, calculate_distance a b = calculate_distance b a) ∧
    (∀ a b : GeoPoint, -90 < a.latitude → a.latitude < 90 → -90 < b.latitude →
      b.latitude < 90 → |a.longitude - b.longitude| < 360 →
      calculate_distance a b = 0 → a.latitude = b.latitude ∧ a.longitude = b.longitude) :=
  ⟨calculate_distance_self, calculate_distance_comm,
    fun a b h1 h2 h3 h4 h5 h => calculate_distance_eq_zero_imp a b h1 h2 h3 h4 h5 h⟩

/-- Witness for C9: the amended theorem applied at the concrete point `(0, 0)`. -/
theorem c9_distance_properties_witness :
    calculate_distance (GeoPoint.mk 0 0 Option.none) (GeoPoint.mk 0 0 Option.none) = 0 ∧
    (GeoPoint.mk 0 0 Option.none).latitude = (GeoPoint.mk 0 0 Option.none).latitude ∧
    (GeoPoint.mk 0 0 Option.none).longitude = (GeoPoint.mk 0 0 Option.none).longitude :=
  ⟨c9_distance_properties.1 _,
    (c9_distance_properties.2.2 (GeoPoint.mk 0 0 Option.none) (GeoPoint.mk 0 0 Option.none)
      (by norm_num) (by norm_num) (by norm_num) (by norm_num) (by norm_num)
      (c9_distance_properties.1 _)).1,
    (c9_distance_properties.2.2 (GeoPoint.mk 0 0 Option.none) (GeoPoint.mk 0 0 Option.none)
      (by norm_num) (by norm_num) (by norm_num) (by norm_num) (by norm_num)
      (c9_distance_properties.1 _)).2⟩

/-- C3 (counterexample): `get_random_point_in_border` clamps `edge_bias` to the
closed interval `[0, 1]`, not `[0, 1)`: the clamp maps `1.0` to `1.0`, and the call
with `edge_bias = 1.0` hits the division by `(1 - edge_bias)` and fails with a
`ZeroDivisionError` instead of returning a `GeoPoint`. -/
theorem c3_edge_bias_one_counterexample :
    max 0.0 (min 1.0 (1.0 : ℝ)) = 1.0 ∧
    get_random_point_in_border (Border.mk 0 0 0.1 0.1 0) 1.0 0.0 Option.none
      (RandomPointDraws.mk 0 0 0) = Except.error PyErr.zeroDivisionError := by
  constructor
  · norm_num
  · unfold get_random_point_in_border
    norm_num

/-- C3 (amended): the clamp keeps `edge_bias` in the closed interval `[0, 1]`, and for
every clamped value strictly below 1 the division is safe and a `GeoPoint` is
returned; only the unguarded boundary value 1 fails. -/
theorem c3_edge_bias_clamp (border : Border) (edge_bias min_distance : ℝ)
    (max_distance : Option ℝ) (draws : RandomPointDraws)
    (h : max 0.0 (min 1.0 edge_bias) < 1) :
    (0 ≤ max 0.0 (min 1.0 edge_bias) ∧ max 0.0 (min 1.0 edge_bias) ≤ 1) ∧
    ∃ p, get_random_point_in_border border edge_bias min_distance max_distance draws =
      Except.ok p := by
  refine ⟨⟨by rw [le_max_iff]; left; norm_num, le_of_lt h⟩, ?_⟩
  unfold get_random_point_in_border
  by_cases h0 : (0 : ℝ) < max 0.0 (min 1.0 edge_bias)
  · rw [if_pos h0, if_neg (by intro hz; rw [sub_eq_zero] at hz; linarith)]
    exact ⟨_, rfl⟩
  · rw [if_neg h0]
    exact ⟨_, rfl⟩

/-- Witness for C3: the amended theorem applied at `edge_bias = 0.4`. -/
theorem c3_edge_bias_clamp_witness :
    ((0 : ℝ) ≤ max 0.0 (min 1.0 (0.4 : ℝ)) ∧ max 0.0 (min 1.0 (0.4 : ℝ)) ≤ 1) ∧
    ∃ p, get_random_point_in_border (Border.mk 0 0 0.1 0.1 0) 0.4 0.0 Option.none
      (RandomPointDraws.mk 0 0 0) = Except.ok p :=
  c3_edge_bias_clamp (Border.mk 0 0 0.1 0.1 0) 0.4 0.0 Option.none
    (RandomPointDraws.mk 0 0 0) (by norm_num)

/-- C5: a single `analyze_drone_data` call never lowers the threat level (in the
order none < low < medium < high < critical), and the analyzer is idempotent on a
stable input: re-analyzing the drone it returned leaves the threat level unchanged
and emits no alert on the second call. -/
theorem c5_analyze_monotone_idempotent (d : Drone) :
    d.threat_level.index ≤ ((analyze_drone_data d).1).threat_level.index ∧
    analyze_drone_data ((analyze_drone_data d).1) = (((analyze_drone_data d).1), Option.none) := by
  by_cases hch : analyze_threat_level d ≠ d.threat_level
  · have h1 : (analyze_drone_data d).1 = { d with threat_level := analyze_threat_level d } := by
      unfold analyze_drone_data
      rw [if_pos hch]
    constructor
    · rw [h1]
      exact analyze_threat_level_mono d
    · rw [h1]
      have h2 : analyze_threat_level { d with threat_level := analyze_threat_level d } =
          analyze_threat_level d := analyze_threat_level_idem d
      unfold analyze_drone_data
      rw [if_neg (by simp [h2])]
  · push_neg at hch
    have h1 : analyze_drone_data d = (d, Option.none) := by
      unfold analyze_drone_data
      rw [if_neg (by simp [hch])]
    rw [h1]
    exact ⟨le_refl _, h1⟩

/-- A point whose latitude and longitude agree with another's is at Haversine
distance zero from it (altitude is ignored by the distance). -/
theorem calculate_distance_eq_zero_of_latlon (p q : GeoPoint)
    (h1 : p.latitude = q.latitude) (h2 : p.longitude = q.longitude) :
    calculate_distance p q = 0 := by
  rw [calculate_distance_def, h1, h2]
  simp only [sub_self, zero_div, Real.sin_zero]
  have h3 : (0 : ℝ) ^ 2 +
      Real.cos (radiansOf q.latitude) * Real.cos (radiansOf q.latitude) * 0 ^ 2 = 0 := by
    ring
  rw [h3, Real.sqrt_zero, sub_zero, Real.sqrt_one, atan2_zero_of_pos 1 one_pos,
    mul_zero, mul_zero]

/-- C4 (counterexample): with the border centered at the pole, a high-threat drone
just past the western edge is simultaneously in the restricted zone, beyond the
western border edge, and at high threat — yet `_check_for_alerts` returns a single
`restricted_zone` alert for that cycle, not the three alerts the claim demands. -/
theorem c4_simultaneous_triggers_counterexample :
    is_in_restricted_zone [HotZone.mk 90 0 0.01 0.8 true] (Border.mk 90 0 0.1 0.1 0)
      (GeoPoint.mk 90 (-0.06) Option.none) ∧
    (GeoPoint.mk 90 (-0.06) Option.none).longitude <
      (Border.mk 90 0 0.1 0.1 0).center_longitude - (Border.mk 90 0 0.1 0.1 0).width / 2 ∧
    (Drone.mk "cx4" 0 (GeoPoint.mk 90 (-0.06) Option.none) DroneType.military 60
        (some 30) (some 180) ThreatLevel.high (some 3) 0.7).threat_level = ThreatLevel.high ∧
    (check_for_alerts (Border.mk 90 0 0.1 0.1 0) [HotZone.mk 90 0 0.01 0.8 true]
        (Drone.mk "cx4" 0 (GeoPoint.mk 90 (-0.06) Option.none) DroneType.military 60
          (some 30) (some 180) ThreatLevel.high (some 3) 0.7)).map (fun a => a.alert_type) =
      some AlertType.restricted_zone ∧
    (∀ a : Alert, check_for_alerts (Border.mk 90 0 0.1 0.1 0) [HotZone.mk 90 0 0.01 0.8 true]
        (Drone.mk "cx4" 0 (GeoPoint.mk 90 (-0.06) Option.none) DroneType.military 60
          (some 30) (some 180) ThreatLevel.high (some 3) 0.7) = some a →
      a.alert_type ≠ AlertType.border_violation) := by
  have hrest : is_in_restricted_zone [HotZone.mk 90 0 0.01 0.8 true] (Border.mk 90 0 0.1 0.1 0)
      (GeoPoint.mk 90 (-0.06) Option.none) := by
    refine Or.inl ⟨HotZone.mk 90 0 0.01 0.8 true, List.mem_singleton.mpr rfl, rfl, ?_⟩
    have h0 : calculate_distance
        { latitude := (HotZone.mk 90 0 0.01 0.8 true).center_latitude,
          longitude := (HotZone.mk 90 0 0.01 0.8 true).center_longitude }
        (GeoPoint.mk 90 (-0.06) Option.none) = 0 :=
      calculate_distance_pole 0 (-0.06) Option.none Option.none
    rw [h0]
    norm_num
  refine ⟨hrest, by norm_num, rfl, ?_, ?_⟩
  · unfold check_for_alerts
    rw [if_pos hrest]
    rfl
  · intro a ha
    unfold check_for_alerts at ha
    rw [if_pos hrest] at ha
    have := (Option.some.injEq _ _).mp ha
    rw [← this]
    intro hcontra
    exact absurd hcontra (by simp)

/-- C4 (amended): `_check_for_alerts` evaluates the three triggers sequentially with
an early return, so at most one alert is produced per call, with priority
restricted-zone over border-violation over high-threat; a drone meeting several
conditions at once gets only the highest-priority alert. -/
theorem c4_alert_priority (border : Border) (hot_zones : List HotZone) (drone : Drone) :
    (is_in_restricted_zone hot_zones border drone.location →
      (check_for_alerts border hot_zones drone).map (fun a => a.alert_type) =
        some AlertType.restricted_zone) ∧
    (¬ is_in_restricted_zone hot_zones border drone.location →
      drone.location.longitude < border.center_longitude - border.width / 2 →
      (check_for_alerts border hot_zones drone).map (fun a => a.alert_type) =
        some AlertType.border_violation) ∧
    (¬ is_in_restricted_zone hot_zones border drone.location →
      ¬ drone.location.longitude < border.center_longitude - border.width / 2 →
      (drone.threat_level = ThreatLevel.high ∨ drone.threat_level = ThreatLevel.critical) →
      (check_for_alerts border hot_zones drone).map (fun a => a.alert_type) =
        some AlertType.unauthorized_flight) ∧
    (¬ is_in_restricted_zone hot_zones border drone.location →
      ¬ drone.location.longitude < border.center_longitude - border.width / 2 →
      ¬ (drone.threat_level = ThreatLevel.high ∨ drone.threat_level = ThreatLevel.critical) →
      check_for_alerts border hot_zones drone = Option.none) := by
  refine ⟨?_, ?_, ?_, ?_⟩
  · intro h1
    unfold check_for_alerts
    rw [if_pos h1]
    rfl
  · intro h1 h2
    unfold check_for_alerts
    rw [if_neg h1, if_pos h2]
    rfl
  · intro h1 h2 h3
    unfold check_for_alerts
    rw [if_neg h1, if_neg h2, if_pos h3]
    rfl
  · intro h1 h2 h3
    unfold check_for_alerts
    rw [if_neg h1, if_neg h2, if_neg h3]

/-- Witness for C4: the priority theorem applied at the pole scenario, where the
restricted-zone hypothesis is discharged concretely. -/
theorem c4_alert_priority_witness :
    (check_for_alerts (Border.mk 90 0 0.1 0.1 0) [HotZone.mk 90 0 0.01 0.8 true]
      (Drone.mk "w4" 0 (GeoPoint.mk 90 0 Option.none) DroneType.commercial 80
        (some 5) (some 90) ThreatLevel.none (some 1) 0.9)).map (fun a => a.alert_type) =
      some AlertType.restricted_zone :=
  (c4_alert_priority (Border.mk 90 0 0.1 0.1 0) [HotZone.mk 90 0 0.01 0.8 true]
    (Drone.mk "w4" 0 (GeoPoint.mk 90 0 Option.none) DroneType.commercial 80
      (some 5) (some 90) ThreatLevel.none (some 1) 0.9)).1 (by
    refine Or.inl ⟨HotZone.mk 90 0 0.01 0.8 true, List.mem_singleton.mpr rfl, rfl, ?_⟩
    have h0 : calculate_distance
        { latitude := (HotZone.mk 90 0 0.01 0.8 true).center_latitude,
          longitude := (HotZone.mk 90 0 0.01 0.8 true).center_longitude }
        (GeoPoint.mk 90 0 Option.none) = 0 :=
      calculate_distance_pole 0 0 Option.none Option.none
    rw [h0]
    norm_num)

theorem calculate_heading_to_target_bounds (a b : GeoPoint) :
    0 ≤ calculate_heading_to_target a b ∧ calculate_heading_to_target a b < 360 := by
  unfold calculate_heading_to_target
  exact ⟨fmod_nonneg_of_pos _ _ (by norm_num), fmod_lt_of_pos _ _ (by norm_num)⟩

theorem initial_append_ne_empty (t : DroneType) (s : String) :
    DroneType.initial t ++ s ≠ "" := by
  intro h
  have hl := congrArg String.length h
  rw [String.length_append] at hl
  have h1 : (DroneType.initial t).length = 1 := by cases t <;> rfl
  rw [h1] at hl
  simp at hl

/-- A concrete restricted hot zone at the border center, as `_create_hot_zones`
appends (radius `min(width, height) * 0.1`, weight 0.8, restricted). -/
def zoneR : HotZone := HotZone.mk 0 0 0.01 0.8 true

/-- A concrete border: a 0.1°×0.1° unrotated box at the origin. -/
def borderR : Border := Border.mk 0 0 0.1 0.1 0

/-- Concrete location draws that make `_generate_random_location` take the hot-zone
branch and sample exactly the zone center at altitude 50. -/
def locDrawsR : LocationDraws :=
  LocationDraws.mk 0 zoneR 0 0 0 (RandomPointDraws.mk 0 0 0)

theorem generate_random_location_concrete :
    generate_random_location [zoneR] borderR true locDrawsR =
      Except.ok (GeoPoint.mk 0 0 (some 50)) := by
  unfold generate_random_location
  rw [if_pos ⟨rfl, by simp, by norm_num [locDrawsR]⟩]
  simp only [locDrawsR, zoneR]
  norm_num [Real.sqrt_zero, Real.sin_zero, Real.cos_zero]

theorem restricted_concrete :
    is_in_restricted_zone [zoneR] borderR (GeoPoint.mk 0 0 (some 50)) := by
  refine Or.inl ⟨zoneR, List.mem_singleton.mpr rfl, rfl, ?_⟩
  have h0 : calculate_distance
      { latitude := zoneR.center_latitude, longitude := zoneR.center_longitude }
      (GeoPoint.mk 0 0 (some 50)) = 0 :=
    calculate_distance_eq_zero_of_latlon _ _ (by norm_num [zoneR]) (by norm_num [zoneR])
  rw [h0]
  norm_num [zoneR]

/-- Concrete spawn draws: military type, the zone-center location draws, zero
uniform draws, the given baseline threat, id number 1234. -/
def drawsOf (baseline : ThreatLevel) : DroneDraws :=
  DroneDraws.mk DroneType.military locDrawsR 0 0 baseline 0 0 0 1234

theorem create_random_drone_concrete (baseline : ThreatLevel) :
    ∃ d, create_random_drone [zoneR] borderR 0 Option.none Option.none (drawsOf baseline) =
        Except.ok d ∧
      d.threat_level = bumpThreat baseline ∧ d.location = GeoPoint.mk 0 0 (some 50) := by
  unfold create_random_drone
  rw [show (drawsOf baseline).loc = locDrawsR from rfl, generate_random_location_concrete]
  refine ⟨_, rfl, ?_, rfl⟩
  simp only [show (drawsOf baseline).baseline = baseline from rfl]
  rw [if_pos restricted_concrete]

/-- C7 (counterexample): a military drone whose baseline threat draw is `critical`
and whose sampled location is the restricted-zone center keeps threat level
`critical` — the threat level is not "exactly one step higher than the baseline"
because the elevation is skipped at the top level. -/
theorem c7_critical_baseline_counterexample :
    ∃ d, create_random_drone [zoneR] borderR 0 Option.none Option.none
        (drawsOf ThreatLevel.critical) = Except.ok d ∧
      is_in_restricted_zone [zoneR] borderR d.location ∧
      (drawsOf ThreatLevel.critical).baseline = ThreatLevel.critical ∧
      d.threat_level = ThreatLevel.critical ∧
      d.threat_level.index ≠ (drawsOf ThreatLevel.critical).baseline.index + 1 := by
  obtain ⟨d, hd, ht, hl⟩ := create_random_drone_concrete ThreatLevel.critical
  refine ⟨d, hd, ?_, rfl, ?_, ?_⟩
  · rw [hl]; exact restricted_concrete
  · rw [ht]; rfl
  · rw [ht]; decide

open Classical in
/-- C7 (amended): every drone produced by `_create_random_drone` has
`0 ≤ signal_strength ≤ 100`, a heading in `[0, 360)`, `0 ≤ confidence ≤ 1`, and a
non-empty id (the given one, or the generated `{TypeInitial}{number}`); when the
sampled location lies in the restricted zone the threat level is the one-step
elevation of the baseline draw — which is exactly one step higher unless the
baseline is already `critical`, in which case it is unchanged. -/
theorem c7_create_random_drone_ranges (hot_zones : List HotZone) (border : Border)
    (now : ℝ) (drone_id : Option String) (mission : Option Mission) (draws : DroneDraws)
    (h1 : draws.u_signal ∈ Set.Ico (0 : ℝ) 1) (h2 : draws.u_conf ∈ Set.Ico (0 : ℝ) 1)
    (h3 : draws.u_heading ∈ Set.Ico (0 : ℝ) 1) :
    ∀ d, create_random_drone hot_zones border now drone_id mission draws = Except.ok d →
      (0 ≤ d.signal_strength ∧ d.signal_strength ≤ 100) ∧
      (∃ hh, d.heading = some hh ∧ 0 ≤ hh ∧ hh < 360) ∧
      (0 ≤ d.confidence ∧ d.confidence ≤ 1) ∧
      (drone_id = Option.none →
        d.id = draws.dtype.initial ++ toString draws.num_id ∧ d.id ≠ "") ∧
      (∀ s, drone_id = some s → d.id = s) ∧
      (is_in_restricted_zone hot_zones border d.location →
        d.threat_level = bumpThreat draws.baseline) ∧
      (¬ is_in_restricted_zone hot_zones border d.location →
        d.threat_level = draws.baseline) ∧
      (draws.baseline ≠ ThreatLevel.critical →
        (bumpThreat draws.baseline).index = draws.baseline.index + 1) ∧
      bumpThreat ThreatLevel.critical = ThreatLevel.critical := by
  intro d hd
  unfold create_random_drone at hd
  cases hloc : generate_random_location hot_zones border true draws.loc with
  | error e =>
      rw [hloc] at hd
      simp [Bind.bind, Except.bind] at hd
  | ok loc =>
      rw [hloc] at hd
      simp only [Bind.bind, Except.bind, Except.ok.injEq] at hd
      subst hd
      refine ⟨?_, ?_, ?_, ?_, ?_, ?_, ?_, ?_, by decide⟩
      · cases draws.dtype <;>
          simp only <;> constructor <;> nlinarith [h1.1, h1.2]
      · cases mission with
        | some m =>
            refine ⟨calculate_heading_to_target loc m.target_location, rfl, ?_, ?_⟩
            · exact (calculate_heading_to_target_bounds _ _).1
            · exact (calculate_heading_to_target_bounds _ _).2
        | none =>
            exact ⟨0 + (360 - 0) * draws.u_heading, rfl, by nlinarith [h3.1, h3.2],
              by nlinarith [h3.1, h3.2]⟩
      · cases draws.dtype <;>
          simp only <;> constructor <;> nlinarith [h2.1, h2.2]
      · intro hid
        subst hid
        exact ⟨rfl, initial_append_ne_empty _ _⟩
      · intro s hid
        subst hid
        rfl
      · intro hr
        simp only
        rw [if_pos hr]
      · intro hr
        simp only
        rw [if_neg hr]
      · intro hne
        revert hne
        cases draws.baseline <;> decide

/-- Witness for C7: the amended theorem applied at the concrete military spawn with
baseline `medium` landing in the restricted zone. -/
theorem c7_create_random_drone_ranges_witness :
    ∃ d, create_random_drone [zoneR] borderR 0 Option.none Option.none
        (drawsOf ThreatLevel.medium) = Except.ok d ∧
      (0 ≤ d.signal_strength ∧ d.signal_strength ≤ 100) ∧
      (∃ hh, d.heading = some hh ∧ 0 ≤ hh ∧ hh < 360) ∧
      (0 ≤ d.confidence ∧ d.confidence ≤ 1) ∧ d.id ≠ "" ∧
      d.threat_level = bumpThreat ThreatLevel.medium := by
  obtain ⟨d, hd, ht, hl⟩ := create_random_drone_concrete ThreatLevel.medium
  have hmain := c7_create_random_drone_ranges [zoneR] borderR 0 Option.none Option.none
    (drawsOf ThreatLevel.medium)
    (by constructor <;> norm_num [drawsOf])
    (by constructor <;> norm_num [drawsOf])
    (by constructor <;> norm_num [drawsOf]) d hd
  exact ⟨d, hd, hmain.1, hmain.2.1, hmain.2.2.1, (hmain.2.2.2.1 rfl).2, ht⟩

theorem build_grid_waypoints_length (center : GeoPoint) (u : ℝ) :
    (build_grid_waypoints center u).length = 9 := rfl

theorem build_grid_waypoints_ne_nil (center : GeoPoint) (u : ℝ) :
    build_grid_waypoints center u ≠ [] := by
  intro h
  have := congrArg List.length h
  rw [build_grid_waypoints_length] at this
  simp at this

/-- `get_random_point_in_border` succeeds whenever the clamped edge bias is below 1. -/
theorem get_random_point_in_border_ok (border : Border) (edge_bias min_distance : ℝ)
    (max_distance : Option ℝ) (draws : RandomPointDraws)
    (h : max 0.0 (min 1.0 edge_bias) < 1) :
    ∃ p, get_random_point_in_border border edge_bias min_distance max_distance draws =
      Except.ok p := by
  unfold get_random_point_in_border
  by_cases h0 : (0 : ℝ) < max 0.0 (min 1.0 edge_bias)
  · rw [if_pos h0, if_neg (by intro hz; rw [sub_eq_zero] at hz; linarith)]
    exact ⟨_, rfl⟩
  · rw [if_neg h0]
    exact ⟨_, rfl⟩

/-- `_create_drone_mission` never raises: every branch returns a mission. -/
theorem create_drone_mission_ok (hot_zones : List HotZone) (border : Border)
    (drone_type : DroneType) (now : ℝ) (draws : MissionDraws) :
    ∃ m, create_drone_mission hot_zones border drone_type now draws = Except.ok m := by
  unfold create_drone_mission
  by_cases h1 : draws.r_infiltration < 0.3
  · rw [if_pos h1]
    by_cases h2 : hot_zones.filter (fun z => z.restricted) ≠ []
    · rw [if_pos h2]
      exact ⟨_, rfl⟩
    · rw [if_neg h2]
      exact ⟨_, rfl⟩
  · rw [if_neg h1]
    by_cases h3 : draws.r_hotzone < 0.5
    · rw [if_pos h3]
      exact ⟨_, rfl⟩
    · rw [if_neg h3]
      have hgen : ∃ p, generate_random_location hot_zones border false draws.loc =
          Except.ok p := by
        unfold generate_random_location
        rw [if_neg (by simp)]
        exact get_random_point_in_border_ok border 0.4 0.0 (some 0.95) draws.loc.point_draws
          (by norm_num)
      obtain ⟨p, hp⟩ := hgen
      rw [hp]
      exact ⟨_, rfl⟩

/-- The concrete grid mission that has consumed all nine waypoints:
behavior `grid`, lattice built, `current_waypoint_index = 9`. -/
noncomputable def gridMissionCex : Mission :=
  Mission.mk "patrol" (GeoPoint.mk 0 0 (some 100)) "grid" 5 600 0
    (build_grid_waypoints (GeoPoint.mk 0 0 (some 100)) 0) 9 false

/-- A plain commercial drone flying that grid mission. -/
def droneCex : Drone :=
  Drone.mk "G1" 0 (GeoPoint.mk 0 0.01 (some 100)) DroneType.commercial 80
    (some 5) (some 90) ThreatLevel.none (some 1) 0.9

/-- All-zero mission-update draws; in particular the grid-restart coin is 0 < 0.5,
taking the "wrap to index 0" branch. -/
def drawsZero : MissionUpdateDraws := MissionUpdateDraws.mk 0 0 0 0 0 0 0 0 0 0 0

/-- Evaluating `_update_drone_mission` on the exhausted grid mission: the wrap-to-0
branch still indexes the waypoint list with the stale local index 9, an
out-of-bounds access. -/
theorem grid_mission_eval :
    update_drone_mission borderR [zoneR] 1 1 droneCex gridMissionCex drawsZero =
      Except.error PyErr.indexError := by
  unfold update_drone_mission
  have hdur : ¬ (gridMissionCex.duration < 1 - gridMissionCex.start_time) := by
    unfold gridMissionCex
    norm_num
  have hb1 : ¬ (gridMissionCex.behavior = "direct") := by unfold gridMissionCex; simp
  have hb2 : ¬ (gridMissionCex.behavior = "circling") := by unfold gridMissionCex; simp
  have hb3 : ¬ (gridMissionCex.behavior = "hovering") := by unfold gridMissionCex; simp
  have hb4 : ¬ (gridMissionCex.behavior = "evasive") := by unfold gridMissionCex; simp
  have hb5 : ¬ (gridMissionCex.behavior = "random") := by unfold gridMissionCex; simp
  have hbg : gridMissionCex.behavior = "grid" := rfl
  have hne : ¬ (gridMissionCex.waypoints = []) := by
    have hw : gridMissionCex.waypoints = build_grid_waypoints (GeoPoint.mk 0 0 (some 100)) 0 :=
      rfl
    rw [hw]
    exact build_grid_waypoints_ne_nil _ _
  simp only [if_neg hdur, if_neg hb1, if_neg hb2, if_neg hb3, if_neg hb4, if_neg hb5,
    if_pos hbg, if_neg hne]
  have h9 : gridMissionCex.waypoints.length = 9 := build_grid_waypoints_length _ _
  have hlen : gridMissionCex.waypoints.length ≤ gridMissionCex.current_waypoint_index := by
    rw [h9]
    exact Nat.le_refl 9
  have hres : drawsZero.r_grid_restart < 0.5 := by unfold drawsZero; norm_num
  simp only [if_pos hlen, if_pos hres]
  have hget : ({ gridMissionCex with current_waypoint_index := 0 } :
      Mission).waypoints[gridMissionCex.current_waypoint_index]? =
      (Option.none : Option GeoPoint) := by
    apply List.getElem?_eq_none
    have hlen2 : ({ gridMissionCex with current_waypoint_index := 0 } :
        Mission).waypoints.length = 9 := build_grid_waypoints_length _ _
    rw [hlen2]
    exact Nat.le_refl 9
  rw [hget]

/-- C2: after the 3×3 lattice (9 waypoints) is exhausted (`current_waypoint_index = 9`)
and the restart coin chooses "wrap to index 0", `_update_drone_mission` resets the
index stored in the mission dict but then indexes the waypoint list with the stale
local index 9 — an out-of-bounds access (Python `IndexError`); the claimed
no-out-of-bounds property fails. -/
theorem c2_grid_stale_index_error :
    (build_grid_waypoints (GeoPoint.mk 0 0 (some 100)) 0).length = 9 ∧
    gridMissionCex.current_waypoint_index = 9 ∧
    gridMissionCex.behavior = "grid" ∧
    update_drone_mission borderR [zoneR] 1 1 droneCex gridMissionCex drawsZero =
      Except.error PyErr.indexError :=
  ⟨build_grid_waypoints_length _ _, rfl, rfl, grid_mission_eval⟩

/-- C10: when a mission's elapsed time exceeds its duration, `_update_drone_position`
returns the drone record completely unchanged; the only state change is to the
mission table — the entry is deleted and, exactly when the 70% coin hits, replaced
by a fresh mission. -/
theorem c10_expired_mission_frame (border : Border) (hot_zones : List HotZone)
    (update_interval now : ℝ) (missions : List (String × Mission)) (drone : Drone)
    (mission : Mission) (draws : PositionDraws)
    (hfind : dictFind missions drone.id = some mission)
    (hexp : mission.duration < now - mission.start_time) :
    ∃ m, update_drone_position border hot_zones update_interval now missions drone draws =
      Except.ok (drone,
        if draws.r_new_mission < 0.7 then
          dictInsert (dictErase missions drone.id) drone.id m
        else dictErase missions drone.id) := by
  unfold update_drone_position
  rw [hfind]
  dsimp only
  have hm : update_drone_mission border hot_zones update_interval now drone mission
      draws.mu = Except.ok (drone, mission, true) := by
    unfold update_drone_mission
    rw [if_pos hexp]
  rw [hm]
  simp only [Bind.bind, Except.bind, if_true]
  by_cases hr : draws.r_new_mission < 0.7
  · obtain ⟨m, hcm⟩ := create_drone_mission_ok hot_zones border drone.type now draws.md
    rw [if_pos hr, hcm]
    exact ⟨m, by rw [if_pos hr]⟩
  · rw [if_neg hr]
    exact ⟨gridMissionCex, by rw [if_neg hr]⟩

/-- Concrete mission-generator draws for witnesses. -/
def missionDrawsW : MissionDraws :=
  MissionDraws.mk 0 zoneR 0 zoneR 0 0 locDrawsR 0 "direct" 600

/-- Witness for C10: the frame theorem applied to a concrete expired mission. -/
theorem c10_expired_mission_frame_witness :
    ∃ m, update_drone_position borderR [zoneR] 1 700 [("G1", gridMissionCex)] droneCex
        (PositionDraws.mk drawsZero 0 missionDrawsW 0 0 0 0 0 0 0 missionDrawsW) =
      Except.ok (droneCex,
        if (0 : ℝ) < 0.7 then
          dictInsert (dictErase [("G1", gridMissionCex)] droneCex.id) droneCex.id m
        else dictErase [("G1", gridMissionCex)] droneCex.id) := by
  apply c10_expired_mission_frame
  · rfl
  · show gridMissionCex.duration < 700 - gridMissionCex.start_time
    unfold gridMissionCex
    norm_num

theorem dictContains_insert_self {α : Type} (l : List (String × α)) (k : String) (v : α) :
    dictContains (dictInsert l k v) k = true := by
  unfold dictInsert
  split
  case isTrue h =>
    unfold dictContains at h ⊢
    rw [List.any_map]
    rw [List.any_eq_true] at h ⊢
    obtain ⟨p, hp, hpk⟩ := h
    refine ⟨p, hp, ?_⟩
    simp [Function.comp, hpk]
  case isFalse h =>
    unfold dictContains
    rw [List.any_append]
    simp

theorem dictContains_insert_mono {α : Type} (l : List (String × α)) (k : String) (v : α)
    (k2 : String) (h : dictContains l k2 = true) :
    dictContains (dictInsert l k v) k2 = true := by
  unfold dictInsert
  split
  · unfold dictContains at h ⊢
    rw [List.any_map]
    rw [List.any_eq_true] at h ⊢
    obtain ⟨p, hp, hpk⟩ := h
    refine ⟨p, hp, ?_⟩
    by_cases hc : p.1 == k
    · have h1 : p.1 = k := eq_of_beq hc
      have h2 : p.1 = k2 := eq_of_beq hpk
      simp [Function.comp, hc, ← h1, h2]
    · simp [Function.comp, hc, hpk]
  · unfold dictContains at h ⊢
    rw [List.any_append]
    simp [dictContains] at h ⊢
    left
    exact h

theorem dictContains_insert_imp {α : Type} (l : List (String × α)) (k : String) (v : α)
    (k2 : String) (h : dictContains (dictInsert l k v) k2 = true) :
    k2 = k ∨ dictContains l k2 = true := by
  unfold dictInsert at h
  split at h
  · unfold dictContains at h
    rw [List.any_map, List.any_eq_true] at h
    obtain ⟨p, hp, hpk⟩ := h
    by_cases hc : p.1 == k
    · left
      have : (k == k2) = true := by simpa [Function.comp, hc] using hpk
      exact (eq_of_beq this).symm
    · right
      unfold dictContains
      rw [List.any_eq_true]
      exact ⟨p, hp, by simpa [Function.comp, hc] using hpk⟩
  · unfold dictContains at h ⊢
    rw [List.any_append] at h
    rcases (Bool.or_eq_true _ _).mp h with h1 | h1
    · right
      exact h1
    · left
      simp at h1
      exact h1.symm

theorem dictContains_erase_iff {α : Type} (l : List (String × α)) (k k2 : String) :
    dictContains (dictErase l k) k2 = true ↔
      dictContains l k2 = true ∧ ¬(k2 = k) := by
  unfold dictErase dictContains
  rw [List.any_filter, List.any_eq_true, List.any_eq_true]
  constructor
  · rintro ⟨p, hp, hpk⟩
    simp only [Bool.and_eq_true, Bool.not_eq_true'] at hpk
    refine ⟨⟨p, hp, hpk.2⟩, ?_⟩
    intro hk
    have h1 : p.1 = k2 := eq_of_beq hpk.2
    rw [hk] at h1
    rw [h1] at hpk
    simp at hpk
  · rintro ⟨⟨p, hp, hpk⟩, hne⟩
    refine ⟨p, hp, ?_⟩
    simp only [Bool.and_eq_true, Bool.not_eq_true']
    refine ⟨?_, hpk⟩
    have h1 : p.1 = k2 := eq_of_beq hpk
    rw [h1]
    exact beq_eq_false_iff_ne.mpr hne

theorem dictContains_ne_nil {α : Type} (l : List (String × α)) (h : l ≠ []) :
    ∃ k, dictContains l k = true := by
  cases l with
  | nil => exact absurd rfl h
  | cons p rest =>
      refine ⟨p.1, ?_⟩
      unfold dictContains
      simp

/-- A concrete simulator state with one drone that has a mission. -/
noncomputable def stC6 : SimState :=
  SimState.mk borderR 5 1 [("G1", droneCex)] [] [zoneR] [("G1", gridMissionCex)]

/-- C6 (counterexample): `reset_simulator` clears the drone registry and the alert
log but not the mission table, so after a reset every pre-existing mission entry
references a nonexistent drone id — the no-orphan invariant is broken. -/
theorem c6_reset_orphans_missions :
    (∀ k, dictContains stC6.drone_missions k = true → dictContains stC6.drones k = true) ∧
    (reset_simulator stC6).drones = [] ∧
    dictContains (reset_simulator stC6).drone_missions "G1" = true ∧
    ¬ (∀ k, dictContains (reset_simulator stC6).drone_missions k = true →
        dictContains (reset_simulator stC6).drones k = true) := by
  refine ⟨fun k hk => hk, rfl, rfl, ?_⟩
  intro hall
  have h := hall "G1" rfl
  simp [reset_simulator, stC6, dictContains] at h

/-- The spawn/retire block preserves "every mission key has a registered drone":
a spawned drone is registered before its optional mission is added, and retirement
erases the drone and its mission together. -/
theorem spawn_retire_preserves_missions (st : SimState) (now r1 r2 : ℝ) (dd : DroneDraws)
    (rm : ℝ) (md : MissionDraws) (rid : String) (st2 : SimState)
    (hinv : ∀ k, dictContains st.drone_missions k = true → dictContains st.drones k = true)
    (hstep : spawn_retire st now r1 r2 dd rm md rid = Except.ok st2) :
    ∀ k, dictContains st2.drone_missions k = true → dictContains st2.drones k = true := by
  unfold spawn_retire at hstep
  by_cases h1 : r1 < 0.05
  · rw [if_pos h1] at hstep
    by_cases h2 : r2 < 0.7 ∧ (dictSize st.drones : ℤ) < (st.num_drones : ℤ) + 3
    · rw [if_pos h2] at hstep
      cases hcr : create_random_drone st.hot_zones st.border now Option.none Option.none dd with
      | error e =>
          rw [hcr] at hstep
          simp [Bind.bind, Except.bind] at hstep
      | ok nd =>
          rw [hcr] at hstep
          simp only [Bind.bind, Except.bind] at hstep
          by_cases h3 : rm < 0.5
          · rw [if_pos h3] at hstep
            cases hcm : create_drone_mission st.hot_zones st.border nd.type now md with
            | error e =>
                rw [hcm] at hstep
                simp [Except.bind] at hstep
            | ok m =>
                rw [hcm] at hstep
                simp only [Except.bind, Except.ok.injEq] at hstep
                subst hstep
                intro k hk
                simp only at hk ⊢
                rcases dictContains_insert_imp _ _ _ _ hk with hke | hkin
                · subst hke
                  exact dictContains_insert_self _ _ _
                · exact dictContains_insert_mono _ _ _ _ (hinv k hkin)
          · rw [if_neg h3] at hstep
            simp only [Except.bind, Except.ok.injEq] at hstep
            subst hstep
            intro k hk
            simp only at hk ⊢
            exact dictContains_insert_mono _ _ _ _ (hinv k hk)
    · rw [if_neg h2] at hstep
      by_cases h4 : st.drones ≠ [] ∧ (st.num_drones : ℤ) - 2 < (dictSize st.drones : ℤ)
      · rw [if_pos h4] at hstep
        simp only [Except.ok.injEq] at hstep
        subst hstep
        intro k hk
        simp only at hk ⊢
        rw [dictContains_erase_iff] at hk ⊢
        exact ⟨hinv k hk.1, hk.2⟩
      · rw [if_neg h4] at hstep
        simp only [Except.ok.injEq] at hstep
        subst hstep
        exact hinv
  · rw [if_neg h1] at hstep
    simp only [Except.ok.injEq] at hstep
    subst hstep
    exact hinv

/-- C6 (amended): within the tick, the spawn/retire block preserves the invariant
that every mission-table key refers to a registered drone (retirement erases the
drone and its mission together), but `reset_simulator` clears only the drones and
alerts, leaving the mission table untouched — so a reset with a nonempty mission
table breaks the invariant, orphaning every mission entry. -/
theorem c6_retire_preserves_reset_breaks :
    (∀ (st : SimState) (now r1 r2 : ℝ) (dd : DroneDraws) (rm : ℝ) (md : MissionDraws)
      (rid : String) (st2 : SimState),
      (∀ k, dictContains st.drone_missions k = true → dictContains st.drones k = true) →
      spawn_retire st now r1 r2 dd rm md rid = Except.ok st2 →
      ∀ k, dictContains st2.drone_missions k = true → dictContains st2.drones k = true) ∧
    (∀ st : SimState, (reset_simulator st).drones = [] ∧
      (reset_simulator st).drone_missions = st.drone_missions ∧
      (st.drone_missions ≠ [] →
        ¬ (∀ k, dictContains (reset_simulator st).drone_missions k = true →
            dictContains (reset_simulator st).drones k = true))) := by
  constructor
  · exact spawn_retire_preserves_missions
  · intro st
    refine ⟨rfl, rfl, ?_⟩
    intro hne hall
    obtain ⟨k, hk⟩ := dictContains_ne_nil st.drone_missions hne
    have h := hall k hk
    simp [reset_simulator, dictContains] at h

/-- Witness for C6: the preservation half applied to the concrete state `stC6` and a
no-op spawn/retire tick (`r1 = 1`), showing its mission key "G1" is registered. -/
theorem c6_retire_preserves_reset_breaks_witness :
    dictContains stC6.drones "G1" = true := by
  have hstep : spawn_retire stC6 1 1 1 (drawsOf ThreatLevel.low) 1 missionDrawsW "" =
      Except.ok stC6 := by
    unfold spawn_retire
    rw [if_neg (by norm_num)]
  exact c6_retire_preserves_reset_breaks.1 stC6 1 1 1 (drawsOf ThreatLevel.low) 1
    missionDrawsW "" stC6 (fun k hk => hk) hstep "G1" rfl

/-- A second, healthy drone present in the registry after the failing one. -/
def drone2 : Drone :=
  Drone.mk "H2" 0 (GeoPoint.mk 0 0.02 (some 100)) DroneType.commercial 80
    (some 5) (some 90) ThreatLevel.none (some 1) 0.9

/-- Per-drone draws whose mission-update part is `drawsZero` (forcing the grid
out-of-bounds path for a drone on the exhausted grid mission). -/
def posDrawsCex : PositionDraws :=
  PositionDraws.mk drawsZero 1 missionDrawsW 1 0 1 0 1 0 1 missionDrawsW

/-- A two-drone state whose first drone flies the exhausted grid mission. -/
noncomputable def stCex : SimState :=
  SimState.mk borderR 5 1 [("G1", droneCex), ("H2", drone2)] [] [zoneR]
    [("G1", gridMissionCex)]

/-- Tick input for that state: benign countermeasure port, no spawn/retire
(`r_spawn1 = 1`), no cancellation pending. -/
noncomputable def inpCex : TickInput :=
  TickInput.mk 1 (fun _ => posDrawsCex) Except.ok 1 1 (drawsOf ThreatLevel.low) 1
    missionDrawsW "" (Except.ok ()) false

theorem upd_pos_cex :
    update_drone_position borderR [zoneR] 1 1 [("G1", gridMissionCex)] droneCex
      posDrawsCex = Except.error PyErr.indexError := by
  unfold update_drone_position
  rw [show dictFind [("G1", gridMissionCex)] droneCex.id = some gridMissionCex from rfl]
  dsimp only
  rw [show posDrawsCex.mu = drawsZero from rfl, grid_mission_eval]
  rfl

theorem tick_body_cex : tick_body stCex inpCex = Except.error PyErr.indexError := by
  have hloop : tick_update_drones inpCex.now inpCex.draws stCex =
      Except.error PyErr.indexError := by
    unfold tick_update_drones
    rw [show stCex.drones = [("G1", droneCex), ("H2", drone2)] from rfl]
    simp only [update_loop]
    unfold stCex inpCex
    dsimp only
    rw [upd_pos_cex]
    rfl
  unfold tick_body
  rw [hloop]
  rfl

/-- C1 (counterexample): with two drones registered and the first one's update
raising (the grid out-of-bounds error), the tick body aborts and the engine task
terminates with that error — contradicting "caught and logged for that drone only,
never aborts the remainder of the tick nor terminates the engine task". -/
theorem c1_drone_exception_terminates_engine :
    2 ≤ dictSize stCex.drones ∧
    inpCex.cancel_at_sleep = false ∧
    engine_step stCex inpCex = Except.error (EngineExit.errored PyErr.indexError) := by
  refine ⟨by norm_num [stCex, dictSize], rfl, ?_⟩
  unfold engine_step
  rw [tick_body_cex]

/-- C1 (amended): an unexpected exception while updating a single drone escapes the
per-drone loop (there is no per-drone handler), is caught by the task-level handler,
logged, and re-raised — terminating the engine task; when the tick body completes,
a pending cancellation is observed at the sleep and re-raised unmasked, and
otherwise the loop continues with the updated state.  Only countermeasure
application and the countermeasure-status broadcast suppress their errors. -/
theorem c1_engine_error_and_cancellation (st : SimState) (inp : TickInput) :
    (∀ e, tick_body st inp = Except.error e →
      engine_step st inp = Except.error (EngineExit.errored e)) ∧
    (∀ st2, tick_body st inp = Except.ok st2 → inp.cancel_at_sleep = true →
      engine_step st inp = Except.error EngineExit.cancelled) ∧
    (∀ st2, tick_body st inp = Except.ok st2 → inp.cancel_at_sleep = false →
      engine_step st inp = Except.ok st2) := by
  refine ⟨?_, ?_, ?_⟩
  · intro e h
    unfold engine_step
    rw [h]
  · intro st2 h hc
    unfold engine_step
    rw [h]
    dsimp only
    rw [hc]
    rfl
  · intro st2 h hc
    unfold engine_step
    rw [h]
    dsimp only
    rw [hc]
    rfl

/-- An empty-registry state for witnesses. -/
def stEmpty : SimState := SimState.mk borderR 5 1 [] [] [zoneR] []

/-- A tick input for `stEmpty` with no spawn/retire and a chosen cancellation flag. -/
noncomputable def inpEmpty (b : Bool) : TickInput :=
  TickInput.mk 1 (fun _ => posDrawsCex) Except.ok 1 1 (drawsOf ThreatLevel.low) 1
    missionDrawsW "" (Except.ok ()) b

theorem tick_body_empty (b : Bool) : tick_body stEmpty (inpEmpty b) = Except.ok stEmpty := by
  have hloop : tick_update_drones (inpEmpty b).now (inpEmpty b).draws stEmpty =
      Except.ok stEmpty := by
    unfold tick_update_drones
    rw [show stEmpty.drones = ([] : List (String × Drone)) from rfl]
    simp only [update_loop]
  unfold tick_body
  rw [hloop]
  simp only [Bind.bind, Except.bind]
  unfold spawn_retire
  rw [if_neg (by norm_num [inpEmpty])]
  rfl

/-- Witness for C1: on an empty registry with a pending cancellation, the engine
step exits with cancellation, by the amended theorem. -/
theorem c1_engine_error_and_cancellation_witness :
    engine_step stEmpty (inpEmpty true) = Except.error EngineExit.cancelled :=
  (c1_engine_error_and_cancellation stEmpty (inpEmpty true)).2.1 stEmpty
    (tick_body_empty true) rfl

theorem dictSize_eq_keys_length {α : Type} (l : List (String × α)) :
    dictSize l = (dictKeys l).length := by
  simp [dictSize, dictKeys]

theorem mem_dictContains {α : Type} (l : List (String × α)) (p : String × α)
    (h : p ∈ l) : dictContains l p.1 = true := by
  unfold dictContains
  rw [List.any_eq_true]
  exact ⟨p, h, by simp⟩

theorem dictContains_false_not_mem {α : Type} (l : List (String × α)) (k : String)
    (h : dictContains l k = false) : k ∉ dictKeys l := by
  intro hmem
  unfold dictKeys at hmem
  obtain ⟨p, hp, hpk⟩ := List.mem_map.mp hmem
  have : dictContains l k = true := by
    unfold dictContains
    rw [List.any_eq_true]
    exact ⟨p, hp, by rw [hpk]; exact beq_self_eq_true k⟩
  rw [h] at this
  exact Bool.false_ne_true this

theorem dictErase_of_not_contains {α : Type} (l : List (String × α)) (k : String)
    (h : dictContains l k = false) : dictErase l k = l := by
  unfold dictErase
  apply List.filter_eq_self.mpr
  intro p hp
  unfold dictContains at h
  have := List.any_eq_false.mp h p hp
  simp at this ⊢
  exact this

theorem dictKeys_insert_nodup {α : Type} (l : List (String × α)) (k : String) (v : α)
    (hnd : (dictKeys l).Nodup) : (dictKeys (dictInsert l k v)).Nodup := by
  by_cases hc : dictContains l k
  · rw [dictKeys_insert_of_contains l k v hc]
    exact hnd
  · unfold dictInsert
    rw [if_neg (by simp [hc])]
    unfold dictKeys
    rw [List.map_append]
    simp only [List.map_cons, List.map_nil]
    rw [List.nodup_append]
    refine ⟨hnd, List.nodup_singleton k, ?_⟩
    intro a ha hb
    simp at hb
    subst hb
    exact dictContains_false_not_mem l a (by simpa using hc) ha

theorem dictKeys_erase_nodup {α : Type} (l : List (String × α)) (k : String)
    (hnd : (dictKeys l).Nodup) : (dictKeys (dictErase l k)).Nodup := by
  have hsub : List.Sublist (dictKeys (dictErase l k)) (dictKeys l) := by
    unfold dictKeys dictErase
    exact List.Sublist.map _ (List.filter_sublist l)
  exact hnd.sublist hsub

theorem apply_cm_list_keys (port : Drone → Except PyErr Drone)
    (l : List (String × Drone)) : dictKeys (apply_cm_list port l) = dictKeys l := by
  induction l with
  | nil => rfl
  | cons p rest ih =>
      obtain ⟨k, d⟩ := p
      unfold apply_cm_list
      cases hp : port d with
      | ok d2 => simp [dictKeys] at ih ⊢; exact ih
      | error e => rfl

/-- The per-drone loop replaces registry entries in place: the key set (hence the
size) of the registry and the configuration fields are unchanged on success. -/
theorem update_loop_preserves (now : ℝ) (draws : String → PositionDraws) :
    ∀ (ps : List (String × Drone)) (s s2 : SimState),
      (∀ p ∈ ps, dictContains s.drones p.1 = true) →
      update_loop now draws ps s = Except.ok s2 →
      dictKeys s2.drones = dictKeys s.drones ∧ s2.border = s.border ∧
        s2.num_drones = s.num_drones ∧ s2.hot_zones = s.hot_zones ∧
        s2.update_interval = s.update_interval := by
  intro ps
  induction ps with
  | nil =>
      intro s s2 hmem h
      simp only [update_loop, Except.ok.injEq] at h
      subst h
      exact ⟨rfl, rfl, rfl, rfl, rfl⟩
  | cons p rest ih =>
      intro s s2 hmem h
      simp only [update_loop] at h
      cases hup : update_drone_position s.border s.hot_zones s.update_interval now
          s.drone_missions p.2 (draws p.1) with
      | error e =>
          rw [hup] at h
          simp [Bind.bind, Except.bind] at h
      | ok res =>
          rw [hup] at h
          simp only [Bind.bind, Except.bind] at h
          have hcont : dictContains s.drones p.1 = true := hmem p (by simp)
          have hmem2 : ∀ q ∈ rest,
              dictContains (dictInsert s.drones p.1 (analyze_drone_data res.1).1) q.1
                = true := by
            intro q hq
            exact dictContains_insert_mono _ _ _ _ (hmem q (by simp [hq]))
          have hres := ih _ s2 hmem2 h
          refine ⟨?_, hres.2.1, hres.2.2.1, hres.2.2.2.1, hres.2.2.2.2⟩
          rw [hres.1]
          exact dictKeys_insert_of_contains _ _ _ hcont

/-- Size accounting for the spawn/retire block: the size is unchanged, grows by one
(only under the `size < num_drones + 3` guard), or shrinks by one (only under the
`size > num_drones - 2` guard); `num_drones` and key-nodup are preserved. -/
theorem spawn_retire_size (st : SimState) (now r1 r2 : ℝ) (dd : DroneDraws)
    (rm : ℝ) (md : MissionDraws) (rid : String) (st2 : SimState)
    (hnd : (dictKeys st.drones).Nodup)
    (h : spawn_retire st now r1 r2 dd rm md rid = Except.ok st2) :
    st2.num_drones = st.num_drones ∧ (dictKeys st2.drones).Nodup ∧
    (dictSize st2.drones = dictSize st.drones ∨
      (dictSize st2.drones = dictSize st.drones + 1 ∧
        (dictSize st.drones : ℤ) < (st.num_drones : ℤ) + 3) ∨
      (dictSize st2.drones + 1 = dictSize st.drones ∧
        (st.num_drones : ℤ) - 2 < (dictSize st.drones : ℤ))) := by
  unfold spawn_retire at h
  by_cases h1 : r1 < 0.05
  · rw [if_pos h1] at h
    by_cases h2 : r2 < 0.7 ∧ (dictSize st.drones : ℤ) < (st.num_drones : ℤ) + 3
    · rw [if_pos h2] at h
      cases hcr : create_random_drone st.hot_zones st.border now Option.none Option.none dd with
      | error e =>
          rw [hcr] at h
          simp [Bind.bind, Except.bind] at h
      | ok nd =>
          rw [hcr] at h
          simp only [Bind.bind, Except.bind] at h
          have hfin : ∀ (ms : List (String × Mission)),
              (Except.ok { st with drones := dictInsert st.drones nd.id nd,
                                   drone_missions := ms,
                                   alerts := st.alerts ++
                                     [{ drone_id := nd.id, alert_type := AlertType.new_detection,
                                        location := nd.location,
                                        description := "New " ++ nd.type.value ++ " drone detected",
                                        threat_level := nd.threat_level }] } :
                Except PyErr SimState) = Except.ok st2 →
              st2.num_drones = st.num_drones ∧ (dictKeys st2.drones).Nodup ∧
              (dictSize st2.drones = dictSize st.drones ∨
                (dictSize st2.drones = dictSize st.drones + 1 ∧
                  (dictSize st.drones : ℤ) < (st.num_drones : ℤ) + 3) ∨
                (dictSize st2.drones + 1 = dictSize st.drones ∧
                  (st.num_drones : ℤ) - 2 < (dictSize st.drones : ℤ))) := by
            intro ms hok
            simp only [Except.ok.injEq] at hok
            subst hok
            refine ⟨rfl, dictKeys_insert_nodup _ _ _ hnd, ?_⟩
            simp only
            rw [dictSize_insert]
            by_cases hc : dictContains st.drones nd.id
            · rw [if_pos hc]
              exact Or.inl rfl
            · rw [if_neg hc]
              exact Or.inr (Or.inl ⟨rfl, h2.2⟩)
          by_cases h3 : rm < 0.5
          · rw [if_pos h3] at h
            cases hcm : create_drone_mission st.hot_zones st.border nd.type now md with
            | error e =>
                rw [hcm] at h
                simp [Except.bind] at h
            | ok m =>
                rw [hcm] at h
                simp only [Except.bind] at h
                exact hfin _ h
          · rw [if_neg h3] at h
            exact hfin _ h
    · rw [if_neg h2] at h
      by_cases h4 : st.drones ≠ [] ∧ (st.num_drones : ℤ) - 2 < (dictSize st.drones : ℤ)
      · rw [if_pos h4] at h
        simp only [Except.ok.injEq] at h
        subst h
        refine ⟨rfl, dictKeys_erase_nodup _ _ hnd, ?_⟩
        simp only
        by_cases hc : dictContains st.drones rid
        · refine Or.inr (Or.inr ⟨?_, h4.2⟩)
          rw [dictSize_erase_of_contains _ _ hnd hc]
          have hpos : 1 ≤ dictSize st.drones := by
            cases hl : st.drones with
            | nil => exact absurd hl h4.1
            | cons q t => simp [dictSize, hl]
          omega
        · rw [dictErase_of_not_contains _ _ (by simpa using hc)]
          exact Or.inl rfl
      · rw [if_neg h4] at h
        simp only [Except.ok.injEq] at h
        subst h
        exact ⟨rfl, hnd, Or.inl rfl⟩
  · rw [if_neg h1] at h
    simp only [Except.ok.injEq] at h
    subst h
    exact ⟨rfl, hnd, Or.inl rfl⟩

/-- Size accounting for one whole engine step: the per-drone loop and the
countermeasure pass keep the key set, and the spawn/retire block changes the size
by at most one, under its guards. -/
theorem engine_step_size (st : SimState) (inp : TickInput) (st2 : SimState)
    (hnd : (dictKeys st.drones).Nodup)
    (hstep : engine_step st inp = Except.ok st2) :
    st2.num_drones = st.num_drones ∧ (dictKeys st2.drones).Nodup ∧
    (dictSize st2.drones = dictSize st.drones ∨
      (dictSize st2.drones = dictSize st.drones + 1 ∧
        (dictSize st.drones : ℤ) < (st.num_drones : ℤ) + 3) ∨
      (dictSize st2.drones + 1 = dictSize st.drones ∧
        (st.num_drones : ℤ) - 2 < (dictSize st.drones : ℤ))) := by
  unfold engine_step at hstep
  cases htb : tick_body st inp with
  | error e =>
      rw [htb] at hstep
      dsimp only at hstep
      exact absurd hstep (by simp)
  | ok st3 =>
      rw [htb] at hstep
      dsimp only at hstep
      by_cases hc : inp.cancel_at_sleep
      · rw [if_pos hc] at hstep
        exact absurd hstep (by simp)
      · rw [if_neg hc] at hstep
        simp only [Except.ok.injEq] at hstep
        subst hstep
        unfold tick_body at htb
        cases hupd : tick_update_drones inp.now inp.draws st with
        | error e =>
            rw [hupd] at htb
            simp [Bind.bind, Except.bind] at htb
        | ok st1 =>
            rw [hupd] at htb
            simp only [Bind.bind, Except.bind] at htb
            cases hsr : spawn_retire
                { st1 with drones := apply_cm_list inp.cm_port st1.drones } inp.now
                inp.r_spawn1 inp.r_spawn2 inp.spawn_draws inp.r_mission
                inp.spawn_mission_draws inp.retire_id with
            | error e =>
                rw [hsr] at htb
                simp [Except.bind] at htb
            | ok st4 =>
                rw [hsr] at htb
                simp only [Except.bind, Except.ok.injEq] at htb
                subst htb
                have hloop := update_loop_preserves inp.now inp.draws st.drones st st1
                  (fun p hp => mem_dictContains _ p hp) hupd
                have hkeys2 : dictKeys (apply_cm_list inp.cm_port st1.drones) =
                    dictKeys st.drones := by
                  rw [apply_cm_list_keys, hloop.1]
                have hnd2 : (dictKeys
                    ({ st1 with drones := apply_cm_list inp.cm_port st1.drones }).drones).Nodup := by
                  simp only
                  rw [hkeys2]
                  exact hnd
                have hsz := spawn_retire_size _ inp.now inp.r_spawn1 inp.r_spawn2
                  inp.spawn_draws inp.r_mission inp.spawn_mission_draws inp.retire_id
                  st4 hnd2 hsr
                have hsize1 : dictSize
                    ({ st1 with drones := apply_cm_list inp.cm_port st1.drones }).drones =
                    dictSize st.drones := by
                  simp only
                  rw [dictSize_eq_keys_length, hkeys2, ← dictSize_eq_keys_length]
                have hnum1 : ({ st1 with
                    drones := apply_cm_list inp.cm_port st1.drones }).num_drones =
                    st.num_drones := hloop.2.2.1
                rw [hsize1, hnum1] at hsz
                exact hsz

/-- C8: starting from a state with `num_drones = 5` (and a well-formed registry),
each engine tick changes the registry size by at most one — a spawn is only taken
when the size is below `num_drones + 3 = 8` and a retirement only when it is above
`num_drones - 2 = 3` — and consequently over any number of ticks the size never
leaves `[3, 8]` once inside it. -/
theorem c8_registry_size_bounds :
    (∀ (st : SimState) (inp : TickInput) (st2 : SimState),
      st.num_drones = 5 → (dictKeys st.drones).Nodup →
      engine_step st inp = Except.ok st2 →
      ((dictSize st.drones : ℤ) - 1 ≤ (dictSize st2.drones : ℤ) ∧
        (dictSize st2.drones : ℤ) ≤ (dictSize st.drones : ℤ) + 1) ∧
      (dictSize st.drones < dictSize st2.drones → dictSize st.drones < 5 + 3) ∧
      (dictSize st2.drones < dictSize st.drones → (5 : ℤ) - 2 < (dictSize st.drones : ℤ)) ∧
      (3 ≤ dictSize st.drones → dictSize st.drones ≤ 8 →
        3 ≤ dictSize st2.drones ∧ dictSize st2.drones ≤ 8)) ∧
    (∀ (st : SimState) (inputs : List TickInput) (st3 : SimState),
      st.num_drones = 5 → (dictKeys st.drones).Nodup →
      3 ≤ dictSize st.drones → dictSize st.drones ≤ 8 →
      engine_run st inputs = Except.ok st3 →
      3 ≤ dictSize st3.drones ∧ dictSize st3.drones ≤ 8) := by
  have hstep : ∀ (st : SimState) (inp : TickInput) (st2 : SimState),
      st.num_drones = 5 → (dictKeys st.drones).Nodup →
      engine_step st inp = Except.ok st2 →
      ((dictSize st.drones : ℤ) - 1 ≤ (dictSize st2.drones : ℤ) ∧
        (dictSize st2.drones : ℤ) ≤ (dictSize st.drones : ℤ) + 1) ∧
      (dictSize st.drones < dictSize st2.drones → dictSize st.drones < 5 + 3) ∧
      (dictSize st2.drones < dictSize st.drones → (5 : ℤ) - 2 < (dictSize st.drones : ℤ)) ∧
      (3 ≤ dictSize st.drones → dictSize st.drones ≤ 8 →
        3 ≤ dictSize st2.drones ∧ dictSize st2.drones ≤ 8) := by
    intro st inp st2 hnum hnd h
    have hsz := engine_step_size st inp st2 hnd h
    rw [hnum] at hsz
    rcases hsz.2.2 with h0 | ⟨hup, hgu⟩ | ⟨hdn, hgd⟩
    · refine ⟨⟨by omega, by omega⟩, by omega, by omega, by omega⟩
    · norm_num at hgu
      refine ⟨⟨by omega, by omega⟩, fun _ => by omega, by omega, by omega⟩
    · norm_num at hgd
      refine ⟨⟨by omega, by omega⟩, by omega, fun _ => by omega, by omega⟩
  refine ⟨hstep, ?_⟩
  intro st inputs
  induction inputs generalizing st with
  | nil =>
      intro st3 hnum hnd h3 h8 hrun
      unfold engine_run at hrun
      simp only [Except.ok.injEq] at hrun
      subst hrun
      exact ⟨h3, h8⟩
  | cons i rest ih =>
      intro st3 hnum hnd h3 h8 hrun
      unfold engine_run at hrun
      cases hes : engine_step st i with
      | error e =>
          rw [hes] at hrun
          simp at hrun
      | ok stm =>
          rw [hes] at hrun
          have hsz := engine_step_size st i stm hnd hes
          have hbn := hstep st i stm hnum hnd hes
          have hnum2 : stm.num_drones = 5 := by rw [hsz.1, hnum]
          exact ih stm st3 hnum2 hsz.2.1 (hbn.2.2.2 h3 h8).1 (hbn.2.2.2 h3 h8).2 hrun

theorem engine_step_empty : engine_step stEmpty (inpEmpty false) = Except.ok stEmpty := by
  unfold engine_step
  rw [tick_body_empty false]
  rfl

/-- Witness for C8: the per-tick bound applied to a concrete no-op engine step. -/
theorem c8_registry_size_bounds_witness :
    (dictSize stEmpty.drones : ℤ) - 1 ≤ (dictSize stEmpty.drones : ℤ) ∧
    (dictSize stEmpty.drones : ℤ) ≤ (dictSize stEmpty.drones : ℤ) + 1 :=
  (c8_registry_size_bounds.1 stEmpty (inpEmpty false) stEmpty rfl
    (by simp [stEmpty, dictKeys]) engine_step_empty).1

end DroneSim
